import Mathlib

/-
Verification of the FruitScan notebooks: a shallow embedding of the two
training notebooks (the three-model comparison notebook and the single
VGG19 notebook) and proofs about their training loops, frozen parameters,
loss bookkeeping, confusion matrices and checkpoint saving.

The deep-learning framework itself (tensor forward passes, the
cross-entropy value, autograd gradients, the Adam update) is third-party
code, so it is abstracted into a context of framework primitives; the
notebook logic (iteration order, accumulation, divisions, freezing,
which parameters the optimizer was built over, what gets returned, what
gets saved) is translated directly from the notebook cells.  Losses and
parameter values are modelled as rationals, minibatches as label lists
with an opaque image-tensor identifier, and exceptions as values of an
error type threaded through Except.
-/

set_option autoImplicit false

deriving instance DecidableEq for Except

namespace FruitScan

/-- A Python exception as the notebook code can observe it: the exception
class name and its message. -/
structure PyErr where
  name : String
  msg : String
deriving DecidableEq, Repr

/-- The exception raised by a Python division with a zero denominator. -/
def zeroDivisionError : PyErr := ⟨"ZeroDivisionError", "division by zero"⟩

/-- The exception raised when Python evaluates an unassigned local name. -/
def nameError (v : String) : PyErr :=
  ⟨"NameError", "name " ++ v ++ " is not defined"⟩

/-- Python float division `a / n` with an integer denominator: raises
ZeroDivisionError when `n = 0`, otherwise returns the quotient. -/
def pydiv (a : ℚ) (n : ℕ) : Except PyErr ℚ :=
  if n = 0 then .error zeroDivisionError else .ok (a / (n : ℚ))

/-- Shape of a `torch.nn.Linear` layer. -/
structure Linear where
  in_features : ℕ
  out_features : ℕ
deriving DecidableEq, Repr

/-- A torchvision classification network as the notebooks manipulate it:
the backbone parameters (`features`: for a ResNet every layer except `fc`,
for VGG19 the convolutional `features` module), the classifier layers
before the final Linear (`preFinal`: `classifier[0..5]` for VGG19, empty
for the ResNets), and the final Linear layer (`fc` for the ResNets,
`classifier[6]` for VGG19) with its shape and weights.  Each group carries
the `requires_grad` flag the notebook sets on it; parameter tensors are
flattened into lists of rationals. -/
structure Net where
  arch : String
  pretrained : Bool
  features : List ℚ
  featuresGrad : Bool
  preFinal : List ℚ
  preFinalGrad : Bool
  finalShape : Linear
  finalW : List ℚ
  finalGrad : Bool
deriving DecidableEq, Repr

/-- The parameters of the net whose `requires_grad` flag is `False`. -/
def Net.frozenParams (z : Net) : List ℚ :=
  (if z.featuresGrad then [] else z.features) ++
  (if z.preFinalGrad then [] else z.preFinal) ++
  (if z.finalGrad then [] else z.finalW)

/-- `model.state_dict()`: all parameter values of the model. -/
def Net.state_dict (z : Net) : List ℚ :=
  z.features ++ z.preFinal ++ z.finalW

/-- `torchvision.models.resnet18(pretrained=True)`: backbone weights `w`,
final layer `fc : Linear(512, 1000)` with weights `fcw`, every parameter
initially trainable.  The pretrained weight values are abstract inputs. -/
def models.resnet18 (w fcw : List ℚ) : Net :=
  ⟨"resnet18", true, w, true, [], true, ⟨512, 1000⟩, fcw, true⟩

/-- `torchvision.models.resnet34(pretrained=True)`: same interface as
resnet18 (`fc.in_features = 512`), deeper backbone. -/
def models.resnet34 (w fcw : List ℚ) : Net :=
  ⟨"resnet34", true, w, true, [], true, ⟨512, 1000⟩, fcw, true⟩

/-- `torchvision.models.vgg19(pretrained=True)`: convolutional features
`w`, classifier layers 0..5 with weights `cw`, and
`classifier[6] : Linear(4096, 1000)` with weights `fcw`. -/
def models.vgg19 (w cw fcw : List ℚ) : Net :=
  ⟨"vgg19", true, w, true, cw, true, ⟨4096, 1000⟩, fcw, true⟩

/-- Paso 5 of the comparison notebook, ResNet branch:
`for param in model.parameters(): param.requires_grad = False` followed by
`model.fc = nn.Linear(model.fc.in_features, ncls)`.  `init` models the
fresh random initialisation of the new Linear layer, whose parameters have
`requires_grad = True` by default. -/
def setup_resnet (z : Net) (ncls : ℕ) (init : ℕ → ℕ → List ℚ) : Net :=
  let z1 : Net :=
    { z with featuresGrad := false, preFinalGrad := false, finalGrad := false }
  { z1 with finalShape := ⟨z1.finalShape.in_features, ncls⟩,
            finalW := init z1.finalShape.in_features ncls,
            finalGrad := true }

/-- VGG19 setup, identical in Paso 5 of the comparison notebook and Paso 3
of the VGG notebook:
`for param in model.features.parameters(): param.requires_grad = False`
followed by `model.classifier[6] = nn.Linear(num_features, ncls)`. -/
def setup_vgg19 (z : Net) (ncls : ℕ) (init : ℕ → ℕ → List ℚ) : Net :=
  let z1 : Net := { z with featuresGrad := false }
  { z1 with finalShape := ⟨z1.finalShape.in_features, ncls⟩,
            finalW := init z1.finalShape.in_features ncls,
            finalGrad := true }

/-- Which parameter group the Adam optimizer was constructed over:
`model.fc.parameters()` for the ResNets, `model.classifier.parameters()`
for VGG19. -/
inductive OptTarget where
  | fcOnly
  | classifier
deriving DecidableEq, Repr

/-- An optimizer object: its internal state and the parameter group it was
constructed over. -/
structure Optim where
  st : List ℚ
  target : OptTarget
deriving DecidableEq, Repr

/-- `optim.Adam(params, lr=0.001)`: a fresh optimizer over the given
parameter group (the learning rate and moment buffers live inside the
abstract update function of the framework context). -/
def adam (t : OptTarget) : Optim := ⟨[], t⟩

/-- The parameter values of the group the optimizer holds. -/
def Net.group (z : Net) : OptTarget → List ℚ
  | .fcOnly => z.finalW
  | .classifier => z.preFinal ++ z.finalW

/-- Write updated values back into the parameter group the optimizer
holds; `optimizer.step()` mutates only the tensors of that group. -/
def Net.setGroup (z : Net) : OptTarget → List ℚ → Net
  | .fcOnly, w => { z with finalW := w }
  | .classifier, w =>
      { z with preFinal := w.take z.preFinal.length,
               finalW := w.drop z.preFinal.length }

/-- One minibatch yielded by a DataLoader: an identifier standing in for
the images tensor, and the integer class labels of the samples. -/
structure Batch where
  imgId : ℕ
  labels : List ℕ
deriving DecidableEq, Repr

/-- Helper for argmaxRow: best index so far, its value, next index. -/
def argmaxAux : List ℚ → ℚ → ℕ → ℕ → ℕ
  | [], _, best, _ => best
  | y :: ys, bv, best, i =>
      if bv < y then argmaxAux ys y i (i + 1) else argmaxAux ys bv best (i + 1)

/-- Index of the first maximal entry of a logit row:
`_, preds = torch.max(outputs, 1)`. -/
def argmaxRow : List ℚ → ℕ
  | [] => 0
  | x :: xs => argmaxAux xs x 0 1

/-- Number of positions at which the two label lists agree:
`(predicted == labels).sum().item()`. -/
def countEq : List ℕ → List ℕ → ℕ
  | a :: as, b :: bs => (if a = b then 1 else 0) + countEq as bs
  | _, _ => 0

/-- Modelled from the sklearn documentation (library code, not part of
this repository): `accuracy_score` is the fraction of positions where the
prediction equals the label.  The notebooks only call it on nonempty
lists of equal length. -/
def accuracy_score (y_true y_pred : List ℕ) : ℚ :=
  if y_true.length = 0 then 0 else (countEq y_true y_pred : ℚ) / (y_true.length : ℚ)

/-- The framework primitives the training cells call; the deep-learning
framework is third-party code, so they are abstract here.  `forward` is
`model(images)`, one logit row per sample; `criterion` is the
CrossEntropyLoss value as read by `.item()`; `grad` is the gradient
vector `loss.backward()` produces for the optimizer group; `optStep` is
the Adam update, taking the optimizer state, the gradients and the
current group values to updated ones — per the optimizer contract it
touches only the parameter group the optimizer was constructed over.
`forward` and `criterion` may raise an arbitrary Python exception. -/
structure Torch where
  forward : Net → ℕ → Except PyErr (List (List ℚ))
  criterion : List (List ℚ) → List ℕ → Except PyErr ℚ
  grad : Net → ℕ → List ℕ → List ℚ
  optStep : List ℚ → List ℚ → List ℚ → List ℚ × List ℚ

/-- The framework context raises no exception: forward and criterion
always return a value. -/
def Torch.noRaise (T : Torch) : Prop :=
  (∀ z i, ∃ outs, T.forward z i = .ok outs) ∧
  (∀ os ls, ∃ v, T.criterion os ls = .ok v)

/-- Every successful forward pass on a batch of `bs` returns one logit row
per sample of the batch. -/
def Torch.rowsMatch (T : Torch) (bs : List Batch) : Prop :=
  ∀ z b, b ∈ bs → ∀ outs, T.forward z b.imgId = .ok outs →
    outs.length = b.labels.length

/-- Forward or criterion raises exception `e` on batch `b` at model state
`z`. -/
def raisesBatch (T : Torch) (z : Net) (b : Batch) (e : PyErr) : Prop :=
  T.forward z b.imgId = .error e ∨
  ∃ outs, T.forward z b.imgId = .ok outs ∧ T.criterion outs b.labels = .error e

/-- Observable events of a notebook run. -/
inductive Ev where
  | zeroGrad
  | fwdTrain
  | lossTrain
  | backward
  | step
  | accumTrain
  | fwdVal
  | lossVal
  | accumVal
  | save (file : String)
deriving DecidableEq, Repr

/-- The event sequence of one fully processed training batch. -/
def batchEvs : List Ev :=
  [.zeroGrad, .fwdTrain, .lossTrain, .backward, .step, .accumTrain]

/-- The event sequence of one fully processed validation batch. -/
def valBatchEvs : List Ev := [.fwdVal, .lossVal, .accumVal]

/-- The inner training loop shared verbatim by `entrenar_modelo`
(comparison notebook, Paso 4) and the Paso 5 loop of the VGG notebook:
`for images, labels in train_loader:` then `optimizer.zero_grad()`;
`outputs = model(images)`; `loss = criterion(outputs, labels)`;
`loss.backward()`; `optimizer.step()`; `running_loss += loss.item()`.
Returns the event trace and either the updated model, optimizer and
running loss, or the first exception raised. -/
def trainPass (T : Torch) : List Batch → Net → Optim → ℚ →
    List Ev × Except PyErr (Net × Optim × ℚ)
  | [], z, o, r => ([], .ok (z, o, r))
  | b :: bs, z, o, r =>
    match T.forward z b.imgId with
    | .error e => ([.zeroGrad, .fwdTrain], .error e)
    | .ok outs =>
      match T.criterion outs b.labels with
      | .error e => ([.zeroGrad, .fwdTrain, .lossTrain], .error e)
      | .ok lossVal =>
        let g := T.grad z b.imgId b.labels
        let p := T.optStep o.st g (z.group o.target)
        let rest := trainPass T bs (z.setGroup o.target p.2) ⟨p.1, o.target⟩ (r + lossVal)
        (batchEvs ++ rest.1, rest.2)

/-- The validation loop of `entrenar_modelo`: under `torch.no_grad()`, for
each validation batch compute outputs and loss, accumulate `val_loss`, and
extend `y_true` with the labels and `y_pred` with the argmax
predictions. -/
def valPass (T : Torch) (z : Net) : List Batch → ℚ → List ℕ → List ℕ →
    List Ev × Except PyErr (ℚ × List ℕ × List ℕ)
  | [], v, yt, yp => ([], .ok (v, yt, yp))
  | b :: bs, v, yt, yp =>
    match T.forward z b.imgId with
    | .error e => ([.fwdVal], .error e)
    | .ok outs =>
      match T.criterion outs b.labels with
      | .error e => ([.fwdVal, .lossVal], .error e)
      | .ok lossVal =>
        let rest := valPass T z bs (v + lossVal) (yt ++ b.labels)
          (yp ++ outs.map argmaxRow)
        (valBatchEvs ++ rest.1, rest.2)

/-- The six values `entrenar_modelo` returns. -/
structure TrainResult where
  model : Net
  train_losses : List ℚ
  val_losses : List ℚ
  val_accuracies : List ℚ
  y_true : List ℕ
  y_pred : List ℕ
deriving DecidableEq, Repr

/-- The `for epoch in range(epochs)` loop of `entrenar_modelo`, carrying
the lists accumulated so far and, once at least one epoch has run, the
`y_true`/`y_pred` of the most recent validation pass (`none` mirrors the
Python locals being unassigned before the first epoch).  Per epoch: one
training pass, `train_loss = running_loss / len(train_loader)` appended to
`train_losses`, one validation pass, `val_loss /= len(val_loader)`
appended to `val_losses`, `accuracy = accuracy_score(y_true, y_pred)`
appended to `val_accuracies`. -/
def epochLoop (T : Torch) (tl vl : List Batch) :
    ℕ → Net → Optim → List ℚ → List ℚ → List ℚ → Option (List ℕ × List ℕ) →
    List Ev ×
      Except PyErr (Net × Optim × List ℚ × List ℚ × List ℚ × Option (List ℕ × List ℕ))
  | 0, z, o, tls, vls, vas, ys => ([], .ok (z, o, tls, vls, vas, ys))
  | n + 1, z, o, tls, vls, vas, _ =>
    let tp := trainPass T tl z o 0
    match tp.2 with
    | .error e => (tp.1, .error e)
    | .ok (z1, o1, running) =>
      match pydiv running tl.length with
      | .error e => (tp.1, .error e)
      | .ok train_loss =>
        let vp := valPass T z1 vl 0 [] []
        match vp.2 with
        | .error e => (tp.1 ++ vp.1, .error e)
        | .ok (vsum, yt, yp) =>
          match pydiv vsum vl.length with
          | .error e => (tp.1 ++ vp.1, .error e)
          | .ok val_loss =>
            let acc := accuracy_score yt yp
            let rest := epochLoop T tl vl n z1 o1 (tls ++ [train_loss])
              (vls ++ [val_loss]) (vas ++ [acc]) (some (yt, yp))
            (tp.1 ++ vp.1 ++ rest.1, rest.2)

/-- `entrenar_modelo(model, train_loader, val_loader, optimizer,
criterion, epochs, nombre)` of the comparison notebook (the criterion and
the other framework calls live in `T`; `nombre` is only printed).  Returns
the event trace together with the returned 6-tuple, or the exception that
escaped; with `epochs = 0` the `return` statement itself raises NameError
because `y_true` was never assigned. -/
def entrenar_modelo (T : Torch) (model : Net)
    (train_loader val_loader : List Batch) (optimizer : Optim) (epochs : ℕ) :
    List Ev × Except PyErr TrainResult :=
  let run := epochLoop T train_loader val_loader epochs model optimizer [] [] [] none
  match run.2 with
  | .error e => (run.1, .error e)
  | .ok (z, _, tls, vls, vas, ys) =>
    match ys with
    | none => (run.1, .error (nameError "y_true"))
    | some (yt, yp) => (run.1, .ok ⟨z, tls, vls, vas, yt, yp⟩)

/-- The validation loop of Paso 5 of the VGG notebook: accumulate
`val_loss`, count `total += labels.size(0)` and
`correct += (predicted == labels).sum().item()`. -/
def valPassV (T : Torch) (z : Net) : List Batch → ℚ → ℕ → ℕ →
    List Ev × Except PyErr (ℚ × ℕ × ℕ)
  | [], v, c, t => ([], .ok (v, c, t))
  | b :: bs, v, c, t =>
    match T.forward z b.imgId with
    | .error e => ([.fwdVal], .error e)
    | .ok outs =>
      match T.criterion outs b.labels with
      | .error e => ([.fwdVal, .lossVal], .error e)
      | .ok lossVal =>
        let rest := valPassV T z bs (v + lossVal)
          (c + countEq (outs.map argmaxRow) b.labels) (t + b.labels.length)
        (valBatchEvs ++ rest.1, rest.2)

/-- The Paso 5 training loop of the VGG notebook: per epoch one training
pass (the same inner loop as `entrenar_modelo`), `epoch_loss =
running_loss / len(train_loader)` appended to `train_losses`, the
validation pass, `val_loss /= len(val_loader)` appended to `val_losses`,
then `accuracy = 100 * correct / total` computed for the printout
(ZeroDivisionError when `total = 0`). -/
def paso5Loop (T : Torch) (tl vl : List Batch) :
    ℕ → Net → Optim → List ℚ → List ℚ →
    List Ev × Except PyErr (Net × Optim × List ℚ × List ℚ)
  | 0, z, o, tls, vls => ([], .ok (z, o, tls, vls))
  | n + 1, z, o, tls, vls =>
    let tp := trainPass T tl z o 0
    match tp.2 with
    | .error e => (tp.1, .error e)
    | .ok (z1, o1, running) =>
      match pydiv running tl.length with
      | .error e => (tp.1, .error e)
      | .ok epoch_loss =>
        let vp := valPassV T z1 vl 0 0 0
        match vp.2 with
        | .error e => (tp.1 ++ vp.1, .error e)
        | .ok (vsum, correct, total) =>
          match pydiv vsum vl.length with
          | .error e => (tp.1 ++ vp.1, .error e)
          | .ok val_loss =>
            match pydiv (100 * (correct : ℚ)) total with
            | .error e => (tp.1 ++ vp.1, .error e)
            | .ok _ =>
              let rest := paso5Loop T tl vl n z1 o1 (tls ++ [epoch_loss])
                (vls ++ [val_loss])
              (tp.1 ++ vp.1 ++ rest.1, rest.2)

/-- The variables of the Paso 5 cell of the comparison notebook after the
three training calls. -/
structure Paso5Out where
  resnet18 : Net
  r18_train : List ℚ
  r18_val : List ℚ
  r18_acc : List ℚ
  y_true_r18 : List ℕ
  y_pred_r18 : List ℕ
  resnet34 : Net
  r34_train : List ℚ
  r34_val : List ℚ
  r34_acc : List ℚ
  y_true_r34 : List ℕ
  y_pred_r34 : List ℕ
  vgg19 : Net
  vgg_train : List ℚ
  vgg_val : List ℚ
  vgg_acc : List ℚ
  y_true_vgg : List ℕ
  y_pred_vgg : List ℕ
deriving DecidableEq, Repr

/-- The Paso 5 cell of the comparison notebook: instantiate each
pretrained zoo model, freeze, replace the final layer with
`nn.Linear(in_features, len(class_names))`, build Adam over the non-frozen
parameters (`fc.parameters()` for the ResNets,
`classifier.parameters()` for VGG19), and train with `entrenar_modelo`.
`w18`/`fcw18` etc. are the abstract pretrained zoo weights, `init` the
fresh Linear initialisation. -/
def paso5 (T : Torch) (class_names : List String) (init : ℕ → ℕ → List ℚ)
    (w18 fcw18 w34 fcw34 wv cv fcwv : List ℚ)
    (train_loader val_loader : List Batch) (epochs : ℕ) :
    Except PyErr Paso5Out :=
  let r18 := setup_resnet (models.resnet18 w18 fcw18) class_names.length init
  match (entrenar_modelo T r18 train_loader val_loader (adam .fcOnly) epochs).2 with
  | .error e => .error e
  | .ok R18 =>
    let r34 := setup_resnet (models.resnet34 w34 fcw34) class_names.length init
    match (entrenar_modelo T r34 train_loader val_loader (adam .fcOnly) epochs).2 with
    | .error e => .error e
    | .ok R34 =>
      let v := setup_vgg19 (models.vgg19 wv cv fcwv) class_names.length init
      match (entrenar_modelo T v train_loader val_loader (adam .classifier) epochs).2 with
      | .error e => .error e
      | .ok RV =>
        .ok ⟨R18.model, R18.train_losses, R18.val_losses, R18.val_accuracies,
             R18.y_true, R18.y_pred,
             R34.model, R34.train_losses, R34.val_losses, R34.val_accuracies,
             R34.y_true, R34.y_pred,
             RV.model, RV.train_losses, RV.val_losses, RV.val_accuracies,
             RV.y_true, RV.y_pred⟩

/-- Modelled from the sklearn documentation (library code, not part of
this repository): without an explicit `labels=` argument,
`confusion_matrix` indexes rows and columns by the sorted distinct labels
occurring in `y_true` or `y_pred`. -/
def cmLabels (y_true y_pred : List ℕ) : List ℕ :=
  (List.range ((y_true ++ y_pred).foldr max 0 + 1)).filter (· ∈ y_true ++ y_pred)

/-- Number of validation samples with true label `i` and predicted label
`j`. -/
def cmCount (y_true y_pred : List ℕ) (i j : ℕ) : ℕ :=
  ((y_true.zip y_pred).filter (fun p => p.1 = i && p.2 = j)).length

/-- `confusion_matrix(y_true, y_pred, normalize="true")` (sklearn, modelled
from its documentation): the count matrix over the inferred labels with
each row divided by its row sum.  A row whose count sum is zero cannot
occur here, because every row label occurs in `y_true` or `y_pred`; sklearn
leaves such rows NaN. -/
def confusion_matrix_true (y_true y_pred : List ℕ) : List (List ℚ) :=
  let ls := cmLabels y_true y_pred
  ls.map (fun i =>
    let row := ls.map (fun j => (cmCount y_true y_pred i j : ℚ))
    let s := row.sum
    row.map (fun c => if s = 0 then 0 else c / s))

/-- What `ConfusionMatrixDisplay(...).plot(...)` renders. -/
structure ConfusionPlot where
  cm : List (List ℚ)
  display_labels : List String
  title : String
deriving DecidableEq, Repr

/-- `mostrar_confusion(y_true, y_pred, modelo)` of the comparison
notebook: plot `confusion_matrix(y_true, y_pred, normalize="true")` with
`display_labels = class_names` and the given title. -/
def mostrar_confusion (class_names : List String) (y_true y_pred : List ℕ)
    (modelo : String) : ConfusionPlot :=
  ⟨confusion_matrix_true y_true y_pred, class_names,
   "Normalized Confusion Matrix - " ++ modelo⟩

/-- The Paso 7 cell of the comparison notebook: the three
`mostrar_confusion` calls, in order. -/
def paso7 (class_names : List String) (o : Paso5Out) : List ConfusionPlot :=
  [ mostrar_confusion class_names o.y_true_r18 o.y_pred_r18 "ResNet18",
    mostrar_confusion class_names o.y_true_r34 o.y_pred_r34 "ResNet34",
    mostrar_confusion class_names o.y_true_vgg o.y_pred_vgg "VGG19" ]

/-- The Paso 8 cell of the comparison notebook:
`torch.save(model.state_dict(), file)` for the three trained models, as
the list of (filename, saved state dict) pairs. -/
def paso8 (o : Paso5Out) : List (String × List ℚ) :=
  [ ("model_resnet18.pth", o.resnet18.state_dict),
    ("model_resnet34.pth", o.resnet34.state_dict),
    ("model_vgg19.pth", o.vgg19.state_dict) ]

/-- Pasos 3 to 5 of the VGG notebook: instantiate `vgg19(pretrained=True)`,
freeze the features, replace `classifier[6]` with
`nn.Linear(num_features, len(class_names))`, build Adam over
`model.classifier.parameters()`, and run the Paso 5 training loop. -/
def vggNotebookTrain (T : Torch) (class_names : List String)
    (init : ℕ → ℕ → List ℚ) (wv cv fcwv : List ℚ)
    (train_loader val_loader : List Batch) (epochs : ℕ) :
    List Ev × Except PyErr (Net × Optim × List ℚ × List ℚ) :=
  let model := setup_vgg19 (models.vgg19 wv cv fcwv) class_names.length init
  paso5Loop T train_loader val_loader epochs model (adam .classifier) [] []

/-- Paso 7 of the VGG notebook:
`torch.save(model.state_dict(), "fruitscan_model.pth")`. -/
def paso7_guardado (m : Net) : List (String × List ℚ) :=
  [("fruitscan_model.pth", m.state_dict)]

/-- Ghost trajectory function: the `loss.item()` values of one training
pass in batch order, along the same model/optimizer trajectory as
`trainPass` (the list stops at a raising batch). -/
def trainLossList (T : Torch) : List Batch → Net → Optim → List ℚ
  | [], _, _ => []
  | b :: bs, z, o =>
    match T.forward z b.imgId with
    | .error _ => []
    | .ok outs =>
      match T.criterion outs b.labels with
      | .error _ => []
      | .ok lossVal =>
        let p := T.optStep o.st (T.grad z b.imgId b.labels) (z.group o.target)
        lossVal :: trainLossList T bs (z.setGroup o.target p.2) ⟨p.1, o.target⟩

/-- Ghost trajectory function: the per-batch validation loss values of one
validation pass of model `z`. -/
def valLossList (T : Torch) (z : Net) : List Batch → List ℚ
  | [] => []
  | b :: bs =>
    match T.forward z b.imgId with
    | .error _ => []
    | .ok outs =>
      match T.criterion outs b.labels with
      | .error _ => []
      | .ok lossVal => lossVal :: valLossList T z bs

/-- Ghost trajectory function: the argmax predictions a validation pass of
model `z` collects, in order. -/
def valPredList (T : Torch) (z : Net) : List Batch → List ℕ
  | [] => []
  | b :: bs =>
    match T.forward z b.imgId with
    | .error _ => []
    | .ok outs =>
      match T.criterion outs b.labels with
      | .error _ => []
      | .ok _ => outs.map argmaxRow ++ valPredList T z bs

/-- Ghost trajectory function: per epoch, the pair (training batch losses,
validation batch losses) along the trajectory of the epoch loop. -/
def epochLossPairs (T : Torch) (tl vl : List Batch) :
    ℕ → Net → Optim → List (List ℚ × List ℚ)
  | 0, _, _ => []
  | n + 1, z, o =>
    match (trainPass T tl z o 0).2 with
    | .error _ => []
    | .ok (z1, o1, _) =>
      (trainLossList T tl z o, valLossList T z1 vl) ::
        epochLossPairs T tl vl n z1 o1

/-- The event trace of one exception-free epoch. -/
def fullEpochTrace (tl vl : List Batch) : List Ev :=
  (tl.map fun _ => batchEvs).flatten ++ (vl.map fun _ => valBatchEvs).flatten

/-- A concrete exception-free framework context used to exercise the
definitions on closed inputs: every forward pass returns the single logit
row [1, 0], the loss is constantly 1, gradients are empty and the update
adds 1 to every parameter of the optimizer group. -/
def torch0 : Torch where
  forward := fun _ _ => .ok [[1, 0]]
  criterion := fun _ _ => .ok 1
  grad := fun _ _ _ => []
  optStep := fun s _ p => (s, p.map (fun x => x + 1))

/-- A concrete framework context whose loss computation raises a
RuntimeError on every batch. -/
def torchFail : Torch where
  forward := fun _ _ => .ok [[1, 0]]
  criterion := fun _ _ => .error ⟨"RuntimeError", "CUDA out of memory"⟩
  grad := fun _ _ _ => []
  optStep := fun s _ p => (s, p)

/-- Zero initialisation for fresh Linear layers in the concrete runs. -/
def init0 : ℕ → ℕ → List ℚ := fun _ n => List.replicate n 0

/-- A concrete fine-tuned ResNet18: backbone weights [5, 7], two dataset
classes. -/
def net0 : Net := setup_resnet (models.resnet18 [5, 7] [3]) 2 init0

/-- A concrete minibatch holding one sample of class 0. -/
def b0 : Batch := ⟨0, [0]⟩

/-- The net0 model after one torch0 training epoch: the head stepped
once. -/
def net1 : Net :=
  ⟨"resnet18", true, [5, 7], false, [], false, ⟨512, 2⟩, [1, 1], true⟩

/-- The value `entrenar_modelo` returns when run with torch0 on net0 for
one epoch over the single-batch loaders [b0]. -/
def R0 : TrainResult := ⟨net1, [1], [1], [1], [0], [0]⟩

/-- Concrete class names for the small closed runs. -/
def cn0 : List String := ["fresh", "rotten"]

/-- The Paso 5 output of the concrete one-epoch torch0 pipeline with zoo
weights [5]/[3], [6]/[4] and [7]/[8]/[9]. -/
def out0 : Paso5Out :=
  ⟨⟨"resnet18", true, [5], false, [], false, ⟨512, 2⟩, [1, 1], true⟩,
   [1], [1], [1], [0], [0],
   ⟨"resnet34", true, [6], false, [], false, ⟨512, 2⟩, [1, 1], true⟩,
   [1], [1], [1], [0], [0],
   ⟨"vgg19", true, [7], false, [9], true, ⟨4096, 2⟩, [1, 1], true⟩,
   [1], [1], [1], [0], [0]⟩

/-! ### Basic lemmas about the embedded operations -/

@[simp] theorem setGroup_features (z : Net) (t : OptTarget) (w : List ℚ) :
    (z.setGroup t w).features = z.features := by cases t <;> rfl

@[simp] theorem setGroup_featuresGrad (z : Net) (t : OptTarget) (w : List ℚ) :
    (z.setGroup t w).featuresGrad = z.featuresGrad := by cases t <;> rfl

@[simp] theorem setGroup_preFinalGrad (z : Net) (t : OptTarget) (w : List ℚ) :
    (z.setGroup t w).preFinalGrad = z.preFinalGrad := by cases t <;> rfl

@[simp] theorem setGroup_finalGrad (z : Net) (t : OptTarget) (w : List ℚ) :
    (z.setGroup t w).finalGrad = z.finalGrad := by cases t <;> rfl

@[simp] theorem setGroup_finalShape (z : Net) (t : OptTarget) (w : List ℚ) :
    (z.setGroup t w).finalShape = z.finalShape := by cases t <;> rfl

@[simp] theorem setGroup_arch (z : Net) (t : OptTarget) (w : List ℚ) :
    (z.setGroup t w).arch = z.arch := by cases t <;> rfl

@[simp] theorem setGroup_pretrained (z : Net) (t : OptTarget) (w : List ℚ) :
    (z.setGroup t w).pretrained = z.pretrained := by cases t <;> rfl

@[simp] theorem setGroup_fcOnly_preFinal (z : Net) (w : List ℚ) :
    (z.setGroup OptTarget.fcOnly w).preFinal = z.preFinal := rfl

theorem pydiv_ok {a : ℚ} {n : ℕ} {q : ℚ} (h : pydiv a n = Except.ok q) :
    n ≠ 0 ∧ q = a / (n : ℚ) := by
  by_cases h0 : n = 0
  · simp [pydiv, h0] at h
  · refine ⟨h0, ?_⟩
    simp [pydiv, h0] at h
    exact h.symm

theorem pydiv_ne (a : ℚ) {n : ℕ} (h : n ≠ 0) :
    pydiv a n = Except.ok (a / (n : ℚ)) := by
  simp [pydiv, h]

theorem pydiv_den_zero (a : ℚ) : pydiv a 0 = Except.error zeroDivisionError := rfl

/-- A successful training pass emits exactly the per-batch standard event
sequence, once per batch and in batch order. -/
theorem trainPass_ok_trace (T : Torch) (bs : List Batch) :
    ∀ z o r s, (trainPass T bs z o r).2 = Except.ok s →
      (trainPass T bs z o r).1 = (bs.map fun _ => batchEvs).flatten := by
  induction bs with
  | nil => intro z o r s _; rfl
  | cons b bs ih =>
    intro z o r s h
    cases hf : T.forward z b.imgId with
    | error e => simp [trainPass, hf] at h
    | ok outs =>
      cases hc : T.criterion outs b.labels with
      | error e => simp [trainPass, hf, hc] at h
      | ok lv =>
        simp only [trainPass, hf, hc] at h ⊢
        rw [ih _ _ _ _ h]
        simp

/-- A successful training pass adds exactly the batch losses to the running
loss, mutates only the optimizer group, and preserves the optimizer
target. -/
theorem trainPass_ok_state (T : Torch) (bs : List Batch) :
    ∀ z o r s, (trainPass T bs z o r).2 = Except.ok s →
      s.2.2 = r + (trainLossList T bs z o).sum ∧
      s.1.features = z.features ∧ s.1.featuresGrad = z.featuresGrad ∧
      s.1.preFinalGrad = z.preFinalGrad ∧ s.1.finalGrad = z.finalGrad ∧
      s.1.finalShape = z.finalShape ∧ s.1.arch = z.arch ∧
      s.1.pretrained = z.pretrained ∧ s.2.1.target = o.target ∧
      (o.target = OptTarget.fcOnly → s.1.preFinal = z.preFinal) := by
  induction bs with
  | nil =>
    intro z o r s h
    simp [trainPass] at h
    cases h
    simp [trainLossList]
  | cons b bs ih =>
    intro z o r s h
    cases hf : T.forward z b.imgId with
    | error e => simp [trainPass, hf] at h
    | ok outs =>
      cases hc : T.criterion outs b.labels with
      | error e => simp [trainPass, hf, hc] at h
      | ok lv =>
        simp only [trainPass, hf, hc] at h
        obtain ⟨h1, h2, h3, h4, h5, h6, h7, h8, h9, h10⟩ := ih _ _ _ _ h
        simp only [setGroup_features, setGroup_featuresGrad, setGroup_preFinalGrad,
          setGroup_finalGrad, setGroup_finalShape, setGroup_arch,
          setGroup_pretrained] at h2 h3 h4 h5 h6 h7 h8
        refine ⟨?_, h2, h3, h4, h5, h6, h7, h8, h9, ?_⟩
        · rw [h1]
          simp [trainLossList, hf, hc]
          ring
        · intro ht
          rw [h10 ht, ht, setGroup_fcOnly_preFinal]

/-- A successful validation pass of `entrenar_modelo` emits one standard
event triple per batch, accumulates exactly the batch losses, and extends
`y_true` with the batch labels and `y_pred` with the argmax predictions,
in iteration order. -/
theorem valPass_ok (T : Torch) (z : Net) (bs : List Batch) :
    ∀ v yt yp u, (valPass T z bs v yt yp).2 = Except.ok u →
      (valPass T z bs v yt yp).1 = (bs.map fun _ => valBatchEvs).flatten ∧
      u.1 = v + (valLossList T z bs).sum ∧
      u.2.1 = yt ++ (bs.map (fun b => b.labels)).flatten ∧
      u.2.2 = yp ++ valPredList T z bs := by
  induction bs with
  | nil =>
    intro v yt yp u h
    simp [valPass] at h
    cases h
    simp [valPass, valLossList, valPredList]
  | cons b bs ih =>
    intro v yt yp u h
    cases hf : T.forward z b.imgId with
    | error e => simp [valPass, hf] at h
    | ok outs =>
      cases hc : T.criterion outs b.labels with
      | error e => simp [valPass, hf, hc] at h
      | ok lv =>
        simp only [valPass, hf, hc] at h ⊢
        obtain ⟨h1, h2, h3, h4⟩ := ih _ _ _ _ h
        refine ⟨by rw [h1]; simp, ?_, ?_, ?_⟩
        · rw [h2]; simp [valLossList, hf, hc]; ring
        · rw [h3]; simp [valPredList, hf, hc]
        · rw [h4]; simp [valPredList, hf, hc]

/-- A successful validation pass of the VGG notebook loop emits one
standard event triple per batch, accumulates exactly the batch losses,
and counts in `total` exactly the number of validation samples. -/
theorem valPassV_ok (T : Torch) (z : Net) (bs : List Batch) :
    ∀ v c t u, (valPassV T z bs v c t).2 = Except.ok u →
      (valPassV T z bs v c t).1 = (bs.map fun _ => valBatchEvs).flatten ∧
      u.1 = v + (valLossList T z bs).sum ∧
      u.2.2 = t + ((bs.map (fun b => b.labels)).flatten).length := by
  induction bs with
  | nil =>
    intro v c t u h
    simp [valPassV] at h
    cases h
    simp [valPassV, valLossList]
  | cons b bs ih =>
    intro v c t u h
    cases hf : T.forward z b.imgId with
    | error e => simp [valPassV, hf] at h
    | ok outs =>
      cases hc : T.criterion outs b.labels with
      | error e => simp [valPassV, hf, hc] at h
      | ok lv =>
        simp only [valPassV, hf, hc] at h ⊢
        obtain ⟨h1, h2, h3⟩ := ih _ _ _ _ h
        refine ⟨by rw [h1]; simp, ?_, ?_⟩
        · rw [h2]; simp [valLossList, hf, hc]; ring
        · rw [h3]; simp; ring

theorem rowsMatch_tail {T : Torch} {b : Batch} {bs : List Batch}
    (h : T.rowsMatch (b :: bs)) : T.rowsMatch bs :=
  fun z b2 hb2 outs ho => h z b2 (List.mem_cons_of_mem _ hb2) outs ho

/-- On a validation pass that succeeds, when the model yields one logit
row per sample the collected predictions are as numerous as the collected
labels. -/
theorem valPredList_length (T : Torch) (bs : List Batch) :
    ∀ z v yt yp u, (valPass T z bs v yt yp).2 = Except.ok u →
      T.rowsMatch bs →
      (valPredList T z bs).length = ((bs.map (fun b => b.labels)).flatten).length := by
  induction bs with
  | nil => intro z v yt yp u _ _; rfl
  | cons b bs ih =>
    intro z v yt yp u h hrows
    cases hf : T.forward z b.imgId with
    | error e => simp [valPass, hf] at h
    | ok outs =>
      cases hc : T.criterion outs b.labels with
      | error e => simp [valPass, hf, hc] at h
      | ok lv =>
        simp only [valPass, hf, hc] at h
        have hlen := hrows z b (List.mem_cons_self b bs) outs hf
        simp [valPredList, hf, hc, hlen, ih _ _ _ _ _ h (rowsMatch_tail hrows)]

/-- Under an exception-free framework context, every training pass runs to
completion with the full per-batch trace. -/
theorem noRaise_trainPass {T : Torch} (hT : T.noRaise) (bs : List Batch) :
    ∀ z o r, ∃ s, trainPass T bs z o r =
      ((bs.map fun _ => batchEvs).flatten, Except.ok s) := by
  induction bs with
  | nil => intro z o r; exact ⟨(z, o, r), rfl⟩
  | cons b bs ih =>
    intro z o r
    obtain ⟨outs, hf⟩ := hT.1 z b.imgId
    obtain ⟨lv, hc⟩ := hT.2 outs b.labels
    obtain ⟨s, hs⟩ := ih (z.setGroup o.target
      (T.optStep o.st (T.grad z b.imgId b.labels) (z.group o.target)).2)
      ⟨(T.optStep o.st (T.grad z b.imgId b.labels) (z.group o.target)).1, o.target⟩
      (r + lv)
    refine ⟨s, ?_⟩
    simp [trainPass, hf, hc, hs]

/-- Under an exception-free framework context, every validation pass of
`entrenar_modelo` runs to completion with the full per-batch trace. -/
theorem noRaise_valPass {T : Torch} (hT : T.noRaise) (z : Net) (bs : List Batch) :
    ∀ v yt yp, ∃ u, valPass T z bs v yt yp =
      ((bs.map fun _ => valBatchEvs).flatten, Except.ok u) := by
  induction bs with
  | nil => intro v yt yp; exact ⟨(v, yt, yp), rfl⟩
  | cons b bs ih =>
    intro v yt yp
    obtain ⟨outs, hf⟩ := hT.1 z b.imgId
    obtain ⟨lv, hc⟩ := hT.2 outs b.labels
    obtain ⟨u, hu⟩ := ih (v + lv) (yt ++ b.labels) (yp ++ outs.map argmaxRow)
    refine ⟨u, ?_⟩
    simp [valPass, hf, hc, hu]

/-- Under an exception-free framework context, every validation pass of
the VGG notebook loop runs to completion with the full per-batch trace. -/
theorem noRaise_valPassV {T : Torch} (hT : T.noRaise) (z : Net) (bs : List Batch) :
    ∀ v c t, ∃ u, valPassV T z bs v c t =
      ((bs.map fun _ => valBatchEvs).flatten, Except.ok u) := by
  induction bs with
  | nil => intro v c t; exact ⟨(v, c, t), rfl⟩
  | cons b bs ih =>
    intro v c t
    obtain ⟨outs, hf⟩ := hT.1 z b.imgId
    obtain ⟨lv, hc⟩ := hT.2 outs b.labels
    obtain ⟨u, hu⟩ := ih (v + lv) (c + countEq (outs.map argmaxRow) b.labels)
      (t + b.labels.length)
    refine ⟨u, ?_⟩
    simp [valPassV, hf, hc, hu]

/-- Loop invariant of the epoch loop of `entrenar_modelo`: on success, the
appended training losses are exactly the per-epoch batch-loss sums divided
by `len(train_loader)`, the appended validation losses the per-epoch sums
divided by `len(val_loader)`, one entry and one accuracy per epoch; the
frozen part of the model and the optimizer target are preserved. -/
theorem epochLoop_ok (T : Torch) (tl vl : List Batch) :
    ∀ n z o tls vls vas ys s,
      (epochLoop T tl vl n z o tls vls vas ys).2 = Except.ok s →
      s.2.2.1 = tls ++ (epochLossPairs T tl vl n z o).map
        (fun p => p.1.sum / (tl.length : ℚ)) ∧
      s.2.2.2.1 = vls ++ (epochLossPairs T tl vl n z o).map
        (fun p => p.2.sum / (vl.length : ℚ)) ∧
      s.2.2.2.2.1.length = vas.length + n ∧
      (epochLossPairs T tl vl n z o).length = n ∧
      s.1.features = z.features ∧ s.1.featuresGrad = z.featuresGrad ∧
      s.1.preFinalGrad = z.preFinalGrad ∧ s.1.finalGrad = z.finalGrad ∧
      s.1.finalShape = z.finalShape ∧ s.1.arch = z.arch ∧
      s.1.pretrained = z.pretrained ∧ s.2.1.target = o.target ∧
      (o.target = OptTarget.fcOnly → s.1.preFinal = z.preFinal) := by
  intro n
  induction n with
  | zero =>
    intro z o tls vls vas ys s h
    simp [epochLoop] at h
    cases h
    simp [epochLossPairs]
  | succ n ih =>
    intro z o tls vls vas ys s h
    cases htp : (trainPass T tl z o 0).2 with
    | error e => simp [epochLoop, htp] at h
    | ok w =>
      obtain ⟨z1, o1, running⟩ := w
      cases hd : pydiv running tl.length with
      | error e => simp [epochLoop, htp, hd] at h
      | ok tloss =>
        cases hv : (valPass T z1 vl 0 [] []).2 with
        | error e => simp [epochLoop, htp, hd, hv] at h
        | ok u =>
          obtain ⟨vsum, yt, yp⟩ := u
          cases hd2 : pydiv vsum vl.length with
          | error e => simp [epochLoop, htp, hd, hv, hd2] at h
          | ok vloss =>
            simp only [epochLoop, htp, hd, hv, hd2] at h
            obtain ⟨H1, H2, H3, H4, H5, H6, H7, H8, H9, H10, H11, H12, H13⟩ :=
              ih _ _ _ _ _ _ _ h
            have hts := trainPass_ok_state T tl z o 0 (z1, o1, running) htp
            simp only [zero_add] at hts
            obtain ⟨ht1, ht2, ht3, ht4, ht5, ht6, ht7, ht8, ht9, ht10⟩ := hts
            obtain ⟨hlen, htlv⟩ := pydiv_ok hd
            obtain ⟨hlen2, hvlv⟩ := pydiv_ok hd2
            have hvp := valPass_ok T z1 vl 0 [] [] (vsum, yt, yp) hv
            have hvsum : vsum = (valLossList T z1 vl).sum := by
              simpa using hvp.2.1
            subst htlv hvlv ht1 hvsum
            refine ⟨?_, ?_, ?_, ?_, ?_, ?_, ?_, ?_, ?_, ?_, ?_, ?_, ?_⟩
            · rw [H1]; simp [epochLossPairs, htp]
            · rw [H2]; simp [epochLossPairs, htp]
            · simp only [List.length_append, List.length_singleton] at H3
              omega
            · simp [epochLossPairs, htp, H4]
            · rw [H5, ht2]
            · rw [H6, ht3]
            · rw [H7, ht4]
            · rw [H8, ht5]
            · rw [H9, ht6]
            · rw [H10, ht7]
            · rw [H11, ht8]
            · rw [H12, ht9]
            · intro ht
              rw [H13 (ht9.trans ht), ht10 ht]

/-- Inversion of one iteration of the epoch loop: a successful run with at
least one epoch decomposes into a successful training pass, a successful
division by `len(train_loader)`, a successful validation pass, a
successful division by `len(val_loader)`, and a successful remainder. -/
theorem epochLoop_succ_inv (T : Torch) (tl vl : List Batch) (n : ℕ)
    (z : Net) (o : Optim) (tls vls vas : List ℚ)
    (ys : Option (List ℕ × List ℕ)) :
    ∀ s, (epochLoop T tl vl (n + 1) z o tls vls vas ys).2 = Except.ok s →
    ∃ z1 o1 running tloss vsum yt yp vloss,
      (trainPass T tl z o 0).2 = Except.ok (z1, o1, running) ∧
      pydiv running tl.length = Except.ok tloss ∧
      (valPass T z1 vl 0 [] []).2 = Except.ok (vsum, yt, yp) ∧
      pydiv vsum vl.length = Except.ok vloss ∧
      (epochLoop T tl vl n z1 o1 (tls ++ [tloss]) (vls ++ [vloss])
        (vas ++ [accuracy_score yt yp]) (some (yt, yp))).2 = Except.ok s := by
  intro s h
  cases htp : (trainPass T tl z o 0).2 with
  | error e => simp [epochLoop, htp] at h
  | ok w =>
    obtain ⟨z1, o1, running⟩ := w
    cases hd : pydiv running tl.length with
    | error e => simp [epochLoop, htp, hd] at h
    | ok tloss =>
      cases hv : (valPass T z1 vl 0 [] []).2 with
      | error e => simp [epochLoop, htp, hd, hv] at h
      | ok u =>
        obtain ⟨vsum, yt, yp⟩ := u
        cases hd2 : pydiv vsum vl.length with
        | error e => simp [epochLoop, htp, hd, hv, hd2] at h
        | ok vloss =>
          simp only [epochLoop, htp, hd, hv, hd2] at h
          exact ⟨z1, o1, running, tloss, vsum, yt, yp, vloss, rfl, hd, hv, hd2, h⟩

/-- On success the epoch loop with zero epochs returns its inputs, and
with at least one epoch it returns as `y_true`/`y_pred` exactly the
labels, respectively the argmax predictions of the returned model, of the
final validation pass; under the one-row-per-sample property the two lists
have equal length. -/
theorem epochLoop_last (T : Torch) (tl vl : List Batch) :
    ∀ n z o tls vls vas ys s,
      (epochLoop T tl vl n z o tls vls vas ys).2 = Except.ok s →
      (n = 0 → s = (z, o, tls, vls, vas, ys)) ∧
      (n ≠ 0 → s.2.2.2.2.2 =
        some ((vl.map (fun b => b.labels)).flatten, valPredList T s.1 vl)) ∧
      (n ≠ 0 → T.rowsMatch vl →
        (valPredList T s.1 vl).length =
          ((vl.map (fun b => b.labels)).flatten).length) := by
  intro n
  induction n with
  | zero =>
    intro z o tls vls vas ys s h
    simp [epochLoop] at h
    cases h
    exact ⟨fun _ => rfl, fun h0 => absurd rfl h0, fun h0 => absurd rfl h0⟩
  | succ n ih =>
    intro z o tls vls vas ys s h
    obtain ⟨z1, o1, running, tloss, vsum, yt, yp, vloss, htp, hd, hv, hd2, hrec⟩ :=
      epochLoop_succ_inv T tl vl n z o tls vls vas ys s h
    obtain ⟨ih1, ih2, ih3⟩ := ih _ _ _ _ _ _ _ hrec
    refine ⟨fun h0 => absurd h0 (Nat.succ_ne_zero n), ?_, ?_⟩
    · intro _
      cases n with
      | zero =>
        rw [ih1 rfl]
        have hvp := valPass_ok T z1 vl 0 [] [] (vsum, yt, yp) hv
        have hyt : yt = (vl.map (fun b => b.labels)).flatten := by
          simpa using hvp.2.2.1
        have hyp : yp = valPredList T z1 vl := by
          simpa using hvp.2.2.2
        simp [hyt, hyp]
      | succ m => exact ih2 (Nat.succ_ne_zero m)
    · intro _ hrows
      cases n with
      | zero =>
        rw [ih1 rfl]
        exact valPredList_length T vl z1 0 [] [] (vsum, yt, yp) hv hrows
      | succ m => exact ih3 (Nat.succ_ne_zero m) hrows

/-- Under an exception-free framework context and nonempty loaders, the
epoch loop runs all its epochs, emitting per epoch one full training pass
followed by one full validation pass and nothing else. -/
theorem noRaise_epochLoop {T : Torch} (hT : T.noRaise) {tl vl : List Batch}
    (h1 : tl ≠ []) (h2 : vl ≠ []) :
    ∀ n z o tls vls vas ys, ∃ s,
      epochLoop T tl vl n z o tls vls vas ys =
        ((List.replicate n (fullEpochTrace tl vl)).flatten, Except.ok s) := by
  intro n
  induction n with
  | zero => intro z o tls vls vas ys; exact ⟨(z, o, tls, vls, vas, ys), rfl⟩
  | succ n ih =>
    intro z o tls vls vas ys
    obtain ⟨⟨z1, o1, running⟩, htp⟩ := noRaise_trainPass hT tl z o 0
    obtain ⟨⟨vsum, yt, yp⟩, hv⟩ := noRaise_valPass hT z1 vl 0 [] []
    have hl1 : tl.length ≠ 0 := by simpa using h1
    have hl2 : vl.length ≠ 0 := by simpa using h2
    obtain ⟨s, hs⟩ := ih z1 o1 (tls ++ [running / (tl.length : ℚ)])
      (vls ++ [vsum / (vl.length : ℚ)]) (vas ++ [accuracy_score yt yp])
      (some (yt, yp))
    refine ⟨s, ?_⟩
    simp [epochLoop, htp, hv, pydiv_ne running hl1, pydiv_ne vsum hl2, hs,
      fullEpochTrace, List.replicate_succ]

/-- Loop invariant of the Paso 5 loop of the VGG notebook: on success the
appended training and validation losses are exactly the per-epoch
batch-loss sums divided by the loader lengths, one entry per epoch, and
the frozen part of the model and the optimizer target are preserved. -/
theorem paso5Loop_ok (T : Torch) (tl vl : List Batch) :
    ∀ n z o tls vls s,
      (paso5Loop T tl vl n z o tls vls).2 = Except.ok s →
      s.2.2.1 = tls ++ (epochLossPairs T tl vl n z o).map
        (fun p => p.1.sum / (tl.length : ℚ)) ∧
      s.2.2.2 = vls ++ (epochLossPairs T tl vl n z o).map
        (fun p => p.2.sum / (vl.length : ℚ)) ∧
      (epochLossPairs T tl vl n z o).length = n ∧
      s.1.features = z.features ∧ s.1.featuresGrad = z.featuresGrad ∧
      s.1.preFinalGrad = z.preFinalGrad ∧ s.1.finalGrad = z.finalGrad ∧
      s.1.finalShape = z.finalShape ∧ s.1.arch = z.arch ∧
      s.1.pretrained = z.pretrained ∧ s.2.1.target = o.target ∧
      (o.target = OptTarget.fcOnly → s.1.preFinal = z.preFinal) := by
  intro n
  induction n with
  | zero =>
    intro z o tls vls s h
    simp [paso5Loop] at h
    cases h
    simp [epochLossPairs]
  | succ n ih =>
    intro z o tls vls s h
    cases htp : (trainPass T tl z o 0).2 with
    | error e => simp [paso5Loop, htp] at h
    | ok w =>
      obtain ⟨z1, o1, running⟩ := w
      cases hd : pydiv running tl.length with
      | error e => simp [paso5Loop, htp, hd] at h
      | ok tloss =>
        cases hv : (valPassV T z1 vl 0 0 0).2 with
        | error e => simp [paso5Loop, htp, hd, hv] at h
        | ok u =>
          obtain ⟨vsum, correct, total⟩ := u
          cases hd2 : pydiv vsum vl.length with
          | error e => simp [paso5Loop, htp, hd, hv, hd2] at h
          | ok vloss =>
            cases hd3 : pydiv (100 * (correct : ℚ)) total with
            | error e => simp [paso5Loop, htp, hd, hv, hd2, hd3] at h
            | ok acc =>
              simp only [paso5Loop, htp, hd, hv, hd2, hd3] at h
              obtain ⟨H1, H2, H3, H4, H5, H6, H7, H8, H9, H10, H11, H12⟩ :=
                ih _ _ _ _ _ h
              have hts := trainPass_ok_state T tl z o 0 (z1, o1, running) htp
              simp only [zero_add] at hts
              obtain ⟨ht1, ht2, ht3, ht4, ht5, ht6, ht7, ht8, ht9, ht10⟩ := hts
              obtain ⟨hlen, htlv⟩ := pydiv_ok hd
              obtain ⟨hlen2, hvlv⟩ := pydiv_ok hd2
              have hvp := valPassV_ok T z1 vl 0 0 0 (vsum, correct, total) hv
              have hvsum : vsum = (valLossList T z1 vl).sum := by
                simpa using hvp.2.1
              subst htlv hvlv ht1 hvsum
              refine ⟨?_, ?_, ?_, ?_, ?_, ?_, ?_, ?_, ?_, ?_, ?_, ?_⟩
              · rw [H1]; simp [epochLossPairs, htp]
              · rw [H2]; simp [epochLossPairs, htp]
              · simp [epochLossPairs, htp, H3]
              · rw [H4, ht2]
              · rw [H5, ht3]
              · rw [H6, ht4]
              · rw [H7, ht5]
              · rw [H8, ht6]
              · rw [H9, ht7]
              · rw [H10, ht8]
              · rw [H11, ht9]
              · intro ht
                rw [H12 (ht9.trans ht), ht10 ht]

/-- Under an exception-free framework context, nonempty loaders and a
nonempty validation set, the Paso 5 loop of the VGG notebook runs all its
epochs, emitting per epoch one full training pass followed by one full
validation pass and nothing else. -/
theorem noRaise_paso5Loop {T : Torch} (hT : T.noRaise) {tl vl : List Batch}
    (h1 : tl ≠ []) (h2 : vl ≠ [])
    (h3 : (vl.map (fun b => b.labels)).flatten ≠ []) :
    ∀ n z o tls vls, ∃ s,
      paso5Loop T tl vl n z o tls vls =
        ((List.replicate n (fullEpochTrace tl vl)).flatten, Except.ok s) := by
  intro n
  induction n with
  | zero => intro z o tls vls; exact ⟨(z, o, tls, vls), rfl⟩
  | succ n ih =>
    intro z o tls vls
    obtain ⟨⟨z1, o1, running⟩, htp⟩ := noRaise_trainPass hT tl z o 0
    obtain ⟨⟨vsum, correct, total⟩, hv⟩ := noRaise_valPassV hT z1 vl 0 0 0
    have hl1 : tl.length ≠ 0 := by simpa using h1
    have hl2 : vl.length ≠ 0 := by simpa using h2
    have htotal : total ≠ 0 := by
      have hvp := valPassV_ok T z1 vl 0 0 0 (vsum, correct, total)
        (by rw [hv])
      have ht : total = ((vl.map (fun b => b.labels)).flatten).length := by
        simpa using hvp.2.2
      rw [ht]
      intro hzero
      exact h3 (List.length_eq_zero.mp hzero)
    obtain ⟨s, hs⟩ := ih z1 o1 (tls ++ [running / (tl.length : ℚ)])
      (vls ++ [vsum / (vl.length : ℚ)])
    refine ⟨s, ?_⟩
    simp [paso5Loop, htp, hv, pydiv_ne running hl1, pydiv_ne vsum hl2,
      pydiv_ne (100 * (correct : ℚ)) htotal, hs, fullEpochTrace,
      List.replicate_succ]

/-- With an empty train loader and at least one epoch, the epoch loop of
`entrenar_modelo` raises ZeroDivisionError at
`running_loss / len(train_loader)`. -/
theorem epochLoop_empty_train (T : Torch) (vl : List Batch) (n : ℕ) (z : Net)
    (o : Optim) (tls vls vas : List ℚ) (ys : Option (List ℕ × List ℕ)) :
    (epochLoop T [] vl (n + 1) z o tls vls vas ys).2 =
      Except.error zeroDivisionError := by
  simp [epochLoop, trainPass, pydiv]

/-- Under an exception-free framework context, with an empty validation
loader and at least one epoch, the epoch loop of `entrenar_modelo` raises
ZeroDivisionError (at the train division when the train loader is also
empty, otherwise at `val_loss /= len(val_loader)`). -/
theorem epochLoop_empty_val {T : Torch} (hT : T.noRaise) (tl : List Batch)
    (n : ℕ) (z : Net) (o : Optim) (tls vls vas : List ℚ)
    (ys : Option (List ℕ × List ℕ)) :
    (epochLoop T tl [] (n + 1) z o tls vls vas ys).2 =
      Except.error zeroDivisionError := by
  cases tl with
  | nil => exact epochLoop_empty_train T [] n z o tls vls vas ys
  | cons b tl =>
    obtain ⟨⟨z1, o1, running⟩, htp⟩ := noRaise_trainPass hT (b :: tl) z o 0
    have hl : (b :: tl).length ≠ 0 := by simp
    simp [epochLoop, htp, pydiv_ne running hl, valPass, pydiv]

/-- With an empty train loader and at least one epoch, the Paso 5 loop of
the VGG notebook raises ZeroDivisionError at
`running_loss / len(train_loader)`. -/
theorem paso5Loop_empty_train (T : Torch) (vl : List Batch) (n : ℕ) (z : Net)
    (o : Optim) (tls vls : List ℚ) :
    (paso5Loop T [] vl (n + 1) z o tls vls).2 =
      Except.error zeroDivisionError := by
  simp [paso5Loop, trainPass, pydiv]

/-- Under an exception-free framework context, with an empty validation
loader and at least one epoch, the Paso 5 loop of the VGG notebook raises
ZeroDivisionError. -/
theorem paso5Loop_empty_val {T : Torch} (hT : T.noRaise) (tl : List Batch)
    (n : ℕ) (z : Net) (o : Optim) (tls vls : List ℚ) :
    (paso5Loop T tl [] (n + 1) z o tls vls).2 =
      Except.error zeroDivisionError := by
  cases tl with
  | nil => exact paso5Loop_empty_train T [] n z o tls vls
  | cons b tl =>
    obtain ⟨⟨z1, o1, running⟩, htp⟩ := noRaise_trainPass hT (b :: tl) z o 0
    have hl : (b :: tl).length ≠ 0 := by simp
    simp [paso5Loop, htp, pydiv_ne running hl, valPassV, pydiv]

/-- Under an exception-free framework context, with a nonempty validation
loader all of whose batches carry zero samples, the Paso 5 loop of the
VGG notebook raises ZeroDivisionError at `accuracy = 100 * correct /
total` because `total = 0`. -/
theorem paso5Loop_total_zero {T : Torch} (hT : T.noRaise) {tl vl : List Batch}
    (h1 : tl ≠ []) (h2 : vl ≠ [])
    (h3 : (vl.map (fun b => b.labels)).flatten = []) (n : ℕ) (z : Net)
    (o : Optim) (tls vls : List ℚ) :
    (paso5Loop T tl vl (n + 1) z o tls vls).2 =
      Except.error zeroDivisionError := by
  obtain ⟨⟨z1, o1, running⟩, htp⟩ := noRaise_trainPass hT tl z o 0
  obtain ⟨⟨vsum, correct, total⟩, hv⟩ := noRaise_valPassV hT z1 vl 0 0 0
  have hl1 : tl.length ≠ 0 := by simpa using h1
  have hl2 : vl.length ≠ 0 := by simpa using h2
  have hvp := valPassV_ok T z1 vl 0 0 0 (vsum, correct, total) (by rw [hv])
  have ht : total = 0 := by
    have := hvp.2.2
    simp [h3] at this
    exact this
  subst ht
  simp [paso5Loop, htp, hv, pydiv_ne running hl1, pydiv_ne vsum hl2, pydiv,
    h1, h2]

/-- `entrenar_modelo` emits exactly the trace of its epoch loop. -/
theorem entrenar_trace (T : Torch) (z : Net) (tl vl : List Batch) (o : Optim)
    (n : ℕ) :
    (entrenar_modelo T z tl vl o n).1 =
      (epochLoop T tl vl n z o [] [] [] none).1 := by
  cases hrun : (epochLoop T tl vl n z o [] [] [] none).2 with
  | error e => simp [entrenar_modelo, hrun]
  | ok s =>
    obtain ⟨z1, o1, tls, vls, vas, ys⟩ := s
    cases ys with
    | none => simp [entrenar_modelo, hrun]
    | some q =>
      obtain ⟨yt, yp⟩ := q
      simp [entrenar_modelo, hrun]

/-- `entrenar_modelo` hands every exception of its epoch loop unchanged to
the caller. -/
theorem entrenar_error {T : Torch} {z : Net} {tl vl : List Batch} {o : Optim}
    {n : ℕ} {e : PyErr}
    (h : (epochLoop T tl vl n z o [] [] [] none).2 = Except.error e) :
    (entrenar_modelo T z tl vl o n).2 = Except.error e := by
  simp [entrenar_modelo, h]

/-- With `epochs = 0`, `entrenar_modelo` raises NameError at its return
statement: `y_true` was never assigned. -/
theorem entrenar_epochs_zero (T : Torch) (z : Net) (tl vl : List Batch)
    (o : Optim) :
    (entrenar_modelo T z tl vl o 0).2 = Except.error (nameError "y_true") := by
  simp [entrenar_modelo, epochLoop]

/-- A successful `entrenar_modelo` run comes from a successful epoch loop
whose components fill the returned record. -/
theorem entrenar_ok_inv {T : Torch} {z : Net} {tl vl : List Batch} {o : Optim}
    {n : ℕ} {R : TrainResult}
    (h : (entrenar_modelo T z tl vl o n).2 = Except.ok R) :
    ∃ s, (epochLoop T tl vl n z o [] [] [] none).2 = Except.ok s ∧
      R.model = s.1 ∧ R.train_losses = s.2.2.1 ∧ R.val_losses = s.2.2.2.1 ∧
      R.val_accuracies = s.2.2.2.2.1 ∧
      s.2.2.2.2.2 = some (R.y_true, R.y_pred) := by
  cases hrun : (epochLoop T tl vl n z o [] [] [] none).2 with
  | error e => simp [entrenar_modelo, hrun] at h
  | ok s =>
    obtain ⟨z1, o1, tls, vls, vas, ys⟩ := s
    cases ys with
    | none => simp [entrenar_modelo, hrun] at h
    | some q =>
      obtain ⟨yt, yp⟩ := q
      simp [entrenar_modelo, hrun] at h
      refine ⟨(z1, o1, tls, vls, vas, some (yt, yp)), rfl, ?_⟩
      cases h
      exact ⟨rfl, rfl, rfl, rfl, rfl⟩

/-- A successful epoch loop that assigned `y_true`/`y_pred` makes
`entrenar_modelo` return successfully. -/
theorem entrenar_ok_of {T : Torch} {z : Net} {tl vl : List Batch} {o : Optim}
    {n : ℕ} {s : Net × Optim × List ℚ × List ℚ × List ℚ ×
      Option (List ℕ × List ℕ)} {yt yp : List ℕ}
    (hrun : (epochLoop T tl vl n z o [] [] [] none).2 = Except.ok s)
    (hys : s.2.2.2.2.2 = some (yt, yp)) :
    (entrenar_modelo T z tl vl o n).2 =
      Except.ok ⟨s.1, s.2.2.1, s.2.2.2.1, s.2.2.2.2.1, yt, yp⟩ := by
  obtain ⟨z1, o1, tls, vls, vas, ys⟩ := s
  simp only at hys
  subst hys
  simp [entrenar_modelo, hrun]

/-- The training loop processes an appended batch list sequentially: after
the batches of `xs` succeed, it continues with `ys` from the state `xs`
produced. -/
theorem trainPass_append_ok (T : Torch) (xs : List Batch) :
    ∀ ys z o r s, (trainPass T xs z o r).2 = Except.ok s →
      trainPass T (xs ++ ys) z o r =
        ((trainPass T xs z o r).1 ++ (trainPass T ys s.1 s.2.1 s.2.2).1,
         (trainPass T ys s.1 s.2.1 s.2.2).2) := by
  induction xs with
  | nil =>
    intro ys z o r s h
    simp [trainPass] at h
    cases h
    simp [trainPass]
  | cons b xs ih =>
    intro ys z o r s h
    cases hf : T.forward z b.imgId with
    | error e => simp [trainPass, hf] at h
    | ok outs =>
      cases hc : T.criterion outs b.labels with
      | error e => simp [trainPass, hf, hc] at h
      | ok lv =>
        simp only [trainPass, hf, hc] at h
        simp only [List.cons_append, trainPass, hf, hc, List.append_eq]
        rw [ih _ _ _ _ _ h]
        simp

/-- The validation loop of `entrenar_modelo` processes an appended batch
list sequentially. -/
theorem valPass_append_ok (T : Torch) (z : Net) (xs : List Batch) :
    ∀ ys v yt yp u, (valPass T z xs v yt yp).2 = Except.ok u →
      valPass T z (xs ++ ys) v yt yp =
        ((valPass T z xs v yt yp).1 ++ (valPass T z ys u.1 u.2.1 u.2.2).1,
         (valPass T z ys u.1 u.2.1 u.2.2).2) := by
  induction xs with
  | nil =>
    intro ys v yt yp u h
    simp [valPass] at h
    cases h
    simp [valPass]
  | cons b xs ih =>
    intro ys v yt yp u h
    cases hf : T.forward z b.imgId with
    | error e => simp [valPass, hf] at h
    | ok outs =>
      cases hc : T.criterion outs b.labels with
      | error e => simp [valPass, hf, hc] at h
      | ok lv =>
        simp only [valPass, hf, hc] at h
        simp only [List.cons_append, valPass, hf, hc, List.append_eq]
        rw [ih _ _ _ _ _ h]
        simp

/-- The training loop never saves anything. -/
theorem save_not_trainPass (T : Torch) (bs : List Batch) :
    ∀ z o r f, Ev.save f ∉ (trainPass T bs z o r).1 := by
  induction bs with
  | nil => intro z o r f; simp [trainPass]
  | cons b bs ih =>
    intro z o r f
    cases hf : T.forward z b.imgId with
    | error e => simp [trainPass, hf]
    | ok outs =>
      cases hc : T.criterion outs b.labels with
      | error e => simp [trainPass, hf, hc]
      | ok lv => simp [trainPass, hf, hc, batchEvs, ih]

/-- The validation loop of `entrenar_modelo` never saves anything. -/
theorem save_not_valPass (T : Torch) (z : Net) (bs : List Batch) :
    ∀ v yt yp f, Ev.save f ∉ (valPass T z bs v yt yp).1 := by
  induction bs with
  | nil => intro v yt yp f; simp [valPass]
  | cons b bs ih =>
    intro v yt yp f
    cases hf : T.forward z b.imgId with
    | error e => simp [valPass, hf]
    | ok outs =>
      cases hc : T.criterion outs b.labels with
      | error e => simp [valPass, hf, hc]
      | ok lv => simp [valPass, hf, hc, valBatchEvs, ih]

/-- The epoch loop of `entrenar_modelo` never saves anything. -/
theorem save_not_epochLoop (T : Torch) (tl vl : List Batch) :
    ∀ n z o tls vls vas ys f,
      Ev.save f ∉ (epochLoop T tl vl n z o tls vls vas ys).1 := by
  intro n
  induction n with
  | zero => intro z o tls vls vas ys f; simp [epochLoop]
  | succ n ih =>
    intro z o tls vls vas ys f
    cases htp : (trainPass T tl z o 0).2 with
    | error e =>
      simp only [epochLoop, htp]
      exact save_not_trainPass T tl z o 0 f
    | ok w =>
      obtain ⟨z1, o1, running⟩ := w
      cases hd : pydiv running tl.length with
      | error e =>
        simp only [epochLoop, htp, hd]
        exact save_not_trainPass T tl z o 0 f
      | ok tloss =>
        cases hv : (valPass T z1 vl 0 [] []).2 with
        | error e =>
          simp only [epochLoop, htp, hd, hv, List.mem_append]
          rintro (h | h)
          · exact save_not_trainPass T tl z o 0 f h
          · exact save_not_valPass T z1 vl 0 [] [] f h
        | ok u =>
          obtain ⟨vsum, yt, yp⟩ := u
          cases hd2 : pydiv vsum vl.length with
          | error e =>
            simp only [epochLoop, htp, hd, hv, hd2, List.mem_append]
            rintro (h | h)
            · exact save_not_trainPass T tl z o 0 f h
            · exact save_not_valPass T z1 vl 0 [] [] f h
          | ok vloss =>
            simp only [epochLoop, htp, hd, hv, hd2, List.mem_append]
            rintro ((h | h) | h)
            · exact save_not_trainPass T tl z o 0 f h
            · exact save_not_valPass T z1 vl 0 [] [] f h
            · exact ih z1 o1 _ _ _ _ f h

/-- A successful Paso 5 cell decomposes into its three successful
training calls, whose results fill the cell variables. -/
theorem paso5_ok_inv {T : Torch} {class_names : List String}
    {init : ℕ → ℕ → List ℚ} {w18 fcw18 w34 fcw34 wv cv fcwv : List ℚ}
    {tl vl : List Batch} {epochs : ℕ} {out : Paso5Out}
    (h : paso5 T class_names init w18 fcw18 w34 fcw34 wv cv fcwv tl vl epochs
      = Except.ok out) :
    ∃ R18 R34 RV,
      (entrenar_modelo T
        (setup_resnet (models.resnet18 w18 fcw18) class_names.length init)
        tl vl (adam OptTarget.fcOnly) epochs).2 = Except.ok R18 ∧
      (entrenar_modelo T
        (setup_resnet (models.resnet34 w34 fcw34) class_names.length init)
        tl vl (adam OptTarget.fcOnly) epochs).2 = Except.ok R34 ∧
      (entrenar_modelo T
        (setup_vgg19 (models.vgg19 wv cv fcwv) class_names.length init)
        tl vl (adam OptTarget.classifier) epochs).2 = Except.ok RV ∧
      out.resnet18 = R18.model ∧ out.y_true_r18 = R18.y_true ∧
      out.y_pred_r18 = R18.y_pred ∧
      out.resnet34 = R34.model ∧ out.y_true_r34 = R34.y_true ∧
      out.y_pred_r34 = R34.y_pred ∧
      out.vgg19 = RV.model ∧ out.y_true_vgg = RV.y_true ∧
      out.y_pred_vgg = RV.y_pred := by
  cases h18 : (entrenar_modelo T
      (setup_resnet (models.resnet18 w18 fcw18) class_names.length init)
      tl vl (adam OptTarget.fcOnly) epochs).2 with
  | error e => simp [paso5, h18] at h
  | ok R18 =>
    cases h34 : (entrenar_modelo T
        (setup_resnet (models.resnet34 w34 fcw34) class_names.length init)
        tl vl (adam OptTarget.fcOnly) epochs).2 with
    | error e => simp [paso5, h18, h34] at h
    | ok R34 =>
      cases hV : (entrenar_modelo T
          (setup_vgg19 (models.vgg19 wv cv fcwv) class_names.length init)
          tl vl (adam OptTarget.classifier) epochs).2 with
      | error e => simp [paso5, h18, h34, hV] at h
      | ok RV =>
        simp [paso5, h18, h34, hV] at h
        cases h
        exact ⟨R18, R34, RV, rfl, rfl, rfl, rfl, rfl, rfl, rfl, rfl, rfl,
          rfl, rfl, rfl⟩

theorem list_sum_div (l : List ℚ) (s : ℚ) :
    (l.map (fun c => c / s)).sum = l.sum / s := by
  induction l with
  | nil => simp
  | cons a l ih => simp [ih, add_div]

/-- Every row of the normalized confusion matrix sums to 1 unless its
count row is all zero. -/
theorem confusion_rows (y_true y_pred : List ℕ) :
    ∀ row ∈ confusion_matrix_true y_true y_pred,
      row.sum = 1 ∨ ∀ x ∈ row, x = 0 := by
  intro row hrow
  simp only [confusion_matrix_true, List.mem_map] at hrow
  obtain ⟨i, hi, hrow⟩ := hrow
  by_cases hs : (List.map (fun j => (cmCount y_true y_pred i j : ℚ))
      (cmLabels y_true y_pred)).sum = 0
  · right
    intro x hx
    rw [← hrow] at hx
    simp only [List.mem_map] at hx
    obtain ⟨c, hc, hx⟩ := hx
    rw [← hx]
    simp [hs]
  · left
    rw [← hrow]
    simp only [hs, if_false]
    rw [list_sum_div]
    exact div_self hs

/-- On a successful run with at least one epoch, the returned
`y_true`/`y_pred` are the labels, respectively the argmax predictions of
the returned model, of the final validation pass. -/
theorem entrenar_final_val {T : Torch} {z : Net} {tl vl : List Batch}
    {o : Optim} {n : ℕ} {R : TrainResult}
    (h : (entrenar_modelo T z tl vl o (n + 1)).2 = Except.ok R) :
    R.y_true = (vl.map (fun b => b.labels)).flatten ∧
    R.y_pred = valPredList T R.model vl ∧
    (T.rowsMatch vl → R.y_pred.length = R.y_true.length) := by
  obtain ⟨s, hrun, hm, -, -, -, hys⟩ := entrenar_ok_inv h
  obtain ⟨-, h2, h3⟩ := epochLoop_last T tl vl (n + 1) z o [] [] [] none s hrun
  have hys2 := (h2 (Nat.succ_ne_zero n)).symm.trans hys
  simp only [Option.some.injEq, Prod.mk.injEq] at hys2
  obtain ⟨hyt, hyp⟩ := hys2
  refine ⟨hyt.symm, ?_, ?_⟩
  · rw [← hyp, hm]
  · intro hrows
    rw [← hyp, ← hyt]
    exact h3 (Nat.succ_ne_zero n) hrows

/-- C1: for every epoch and every batch drawn from train_loader, the
training loop — `entrenar_modelo` of the comparison notebook and the Paso
5 loop of the VGG notebook, both of which run the shared inner loop
`trainPass` over the whole train_loader at the start of each epoch —
performs exactly the standard sequence in this order: zero the gradients,
forward pass, cross-entropy loss, backward pass, optimizer step, and then
adds the batch loss to the running epoch loss. -/
theorem c1_standard_step_order (T : Torch) :
    (∀ bs z o r s, (trainPass T bs z o r).2 = Except.ok s →
      (trainPass T bs z o r).1 = (bs.map fun _ => batchEvs).flatten) ∧
    batchEvs = [Ev.zeroGrad, Ev.fwdTrain, Ev.lossTrain, Ev.backward,
      Ev.step, Ev.accumTrain] ∧
    (∀ tl vl n z o tls vls vas ys, ∃ rest,
      (epochLoop T tl vl (n + 1) z o tls vls vas ys).1 =
        (trainPass T tl z o 0).1 ++ rest) ∧
    (∀ tl vl n z o tls vls, ∃ rest,
      (paso5Loop T tl vl (n + 1) z o tls vls).1 =
        (trainPass T tl z o 0).1 ++ rest) := by
  refine ⟨trainPass_ok_trace T, rfl, ?_, ?_⟩
  · intro tl vl n z o tls vls vas ys
    cases htp : (trainPass T tl z o 0).2 with
    | error e => exact ⟨[], by simp [epochLoop, htp]⟩
    | ok w =>
      obtain ⟨z1, o1, running⟩ := w
      cases hd : pydiv running tl.length with
      | error e => exact ⟨[], by simp [epochLoop, htp, hd]⟩
      | ok tloss =>
        cases hv : (valPass T z1 vl 0 [] []).2 with
        | error e =>
          exact ⟨(valPass T z1 vl 0 [] []).1, by simp [epochLoop, htp, hd, hv]⟩
        | ok u =>
          obtain ⟨vsum, yt, yp⟩ := u
          cases hd2 : pydiv vsum vl.length with
          | error e =>
            exact ⟨(valPass T z1 vl 0 [] []).1,
              by simp [epochLoop, htp, hd, hv, hd2]⟩
          | ok vloss =>
            exact ⟨(valPass T z1 vl 0 [] []).1 ++
              (epochLoop T tl vl n z1 o1 (tls ++ [tloss]) (vls ++ [vloss])
                (vas ++ [accuracy_score yt yp]) (some (yt, yp))).1,
              by simp [epochLoop, htp, hd, hv, hd2]⟩
  · intro tl vl n z o tls vls
    cases htp : (trainPass T tl z o 0).2 with
    | error e => exact ⟨[], by simp [paso5Loop, htp]⟩
    | ok w =>
      obtain ⟨z1, o1, running⟩ := w
      cases hd : pydiv running tl.length with
      | error e => exact ⟨[], by simp [paso5Loop, htp, hd]⟩
      | ok tloss =>
        cases hv : (valPassV T z1 vl 0 0 0).2 with
        | error e =>
          exact ⟨(valPassV T z1 vl 0 0 0).1, by simp [paso5Loop, htp, hd, hv]⟩
        | ok u =>
          obtain ⟨vsum, correct, total⟩ := u
          cases hd2 : pydiv vsum vl.length with
          | error e =>
            exact ⟨(valPassV T z1 vl 0 0 0).1,
              by simp [paso5Loop, htp, hd, hv, hd2]⟩
          | ok vloss =>
            cases hd3 : pydiv (100 * (correct : ℚ)) total with
            | error e =>
              exact ⟨(valPassV T z1 vl 0 0 0).1,
                by simp [paso5Loop, htp, hd, hv, hd2, hd3]⟩
            | ok acc =>
              exact ⟨(valPassV T z1 vl 0 0 0).1 ++
                (paso5Loop T tl vl n z1 o1 (tls ++ [tloss])
                  (vls ++ [vloss])).1,
                by simp [paso5Loop, htp, hd, hv, hd2, hd3]⟩

theorem c1_witness :
    (trainPass torch0 [b0] net0 (adam OptTarget.fcOnly) 0).2 =
      Except.ok (net1, ⟨[], OptTarget.fcOnly⟩, 1) ∧
    (trainPass torch0 [b0] net0 (adam OptTarget.fcOnly) 0).1 =
      (([b0] : List Batch).map fun _ => batchEvs).flatten := by
  have hrun : (trainPass torch0 [b0] net0 (adam OptTarget.fcOnly) 0).2 =
      Except.ok (net1, ⟨[], OptTarget.fcOnly⟩, 1) := by
    norm_num [trainPass, torch0, net0, b0, net1, adam, argmaxRow, argmaxAux,
      Net.setGroup, Net.group, setup_resnet, models.resnet18, init0,
      List.replicate]
  exact ⟨hrun, (c1_standard_step_order torch0).1 [b0] net0
    (adam OptTarget.fcOnly) 0 (net1, ⟨[], OptTarget.fcOnly⟩, 1) hrun⟩

/-- C2: training is transfer learning that leaves the frozen pretrained
weights untouched: on every successful run of `entrenar_modelo` and of
the VGG Paso 5 loop, the parameter groups whose requires_grad was set to
False keep their values — the optimizer was constructed over only the
non-frozen fc/classifier parameters — and after the setups the frozen set
is exactly the pretrained backbone (all of the ResNet parameters except
the replaced fc layer; the convolutional features of VGG19). -/
theorem c2_frozen_unchanged (T : Torch) (tl vl : List Batch) (n : ℕ) :
    (∀ z o R, (entrenar_modelo T z tl vl o n).2 = Except.ok R →
      R.model.features = z.features ∧ R.model.featuresGrad = z.featuresGrad ∧
      ((o.target = OptTarget.fcOnly ∨ z.preFinalGrad = true) →
        z.finalGrad = true → R.model.frozenParams = z.frozenParams)) ∧
    (∀ z o s, (paso5Loop T tl vl n z o [] []).2 = Except.ok s →
      s.1.features = z.features ∧
      ((o.target = OptTarget.fcOnly ∨ z.preFinalGrad = true) →
        z.finalGrad = true → s.1.frozenParams = z.frozenParams)) ∧
    (∀ w fcw ncls init,
      (setup_resnet (models.resnet18 w fcw) ncls init).frozenParams = w) ∧
    (∀ w fcw ncls init,
      (setup_resnet (models.resnet34 w fcw) ncls init).frozenParams = w) ∧
    (∀ w cw fcw ncls init,
      (setup_vgg19 (models.vgg19 w cw fcw) ncls init).frozenParams = w) := by
  refine ⟨?_, ?_, ?_, ?_, ?_⟩
  · intro z o R h
    obtain ⟨s, hrun, hm, -, -, -, -⟩ := entrenar_ok_inv h
    obtain ⟨-, -, -, -, h5, h6, h7, h8, -, -, -, -, h13⟩ :=
      epochLoop_ok T tl vl n z o [] [] [] none s hrun
    rw [hm]
    refine ⟨h5, h6, ?_⟩
    rintro (ht | hpre) hfin
    · simp [Net.frozenParams, h5, h6, h7, h8, h13 ht, hfin]
    · simp [Net.frozenParams, h5, h6, h7, h8, hpre, hfin]
  · intro z o s h
    obtain ⟨-, -, -, h5, h6, h7, h8, -, -, -, -, h13⟩ :=
      paso5Loop_ok T tl vl n z o [] [] s h
    refine ⟨h5, ?_⟩
    rintro (ht | hpre) hfin
    · simp [Net.frozenParams, h5, h6, h7, h8, h13 ht, hfin]
    · simp [Net.frozenParams, h5, h6, h7, h8, hpre, hfin]
  · intro w fcw ncls init
    simp [setup_resnet, models.resnet18, Net.frozenParams]
  · intro w fcw ncls init
    simp [setup_resnet, models.resnet34, Net.frozenParams]
  · intro w cw fcw ncls init
    simp [setup_vgg19, models.vgg19, Net.frozenParams]

theorem c2_witness :
    (entrenar_modelo torch0 net0 [b0] [b0] (adam OptTarget.fcOnly) 1).2 =
      Except.ok R0 ∧
    R0.model.frozenParams = net0.frozenParams ∧
    R0.model.features = net0.features ∧
    R0.model.finalW ≠ net0.finalW := by
  have hrun : (entrenar_modelo torch0 net0 [b0] [b0] (adam OptTarget.fcOnly) 1).2 =
      Except.ok R0 := by
    norm_num [entrenar_modelo, epochLoop, trainPass, valPass, torch0, net0, b0,
    net1, R0, adam, pydiv, accuracy_score, countEq, argmaxRow, argmaxAux,
    Net.setGroup, Net.group, setup_resnet, models.resnet18, init0,
    valLossList, valPredList, List.replicate]
  have h := (c2_frozen_unchanged torch0 [b0] [b0] 1).1 net0
    (adam OptTarget.fcOnly) R0 hrun
  exact ⟨hrun, h.2.2 (Or.inl rfl) rfl, h.1, by decide⟩

/-- C3: the notebooks fine-tune the pretrained classifiers ResNet18,
ResNet34 and VGG19: the comparison notebook instantiates all three from
the zoo with pretrained=True, replaces each final layer with a fresh
Linear whose out_features equals len(class_names), and trains each on the
fruit loaders via `entrenar_modelo`; the VGG notebook instantiates
pretrained VGG19, replaces classifier[6] likewise, and trains it with its
Paso 5 loop. -/
theorem c3_pretrained_finetuning (T : Torch) (class_names : List String)
    (init : ℕ → ℕ → List ℚ) (w18 fcw18 w34 fcw34 wv cv fcwv : List ℚ)
    (tl vl : List Batch) (epochs : ℕ) :
    (setup_resnet (models.resnet18 w18 fcw18) class_names.length init).finalShape
      = ⟨512, class_names.length⟩ ∧
    (setup_resnet (models.resnet18 w18 fcw18) class_names.length init).pretrained
      = true ∧
    (setup_resnet (models.resnet34 w34 fcw34) class_names.length init).finalShape
      = ⟨512, class_names.length⟩ ∧
    (setup_resnet (models.resnet34 w34 fcw34) class_names.length init).pretrained
      = true ∧
    (setup_vgg19 (models.vgg19 wv cv fcwv) class_names.length init).finalShape
      = ⟨4096, class_names.length⟩ ∧
    (setup_vgg19 (models.vgg19 wv cv fcwv) class_names.length init).pretrained
      = true ∧
    (∀ out, paso5 T class_names init w18 fcw18 w34 fcw34 wv cv fcwv tl vl epochs
        = Except.ok out →
      (∃ R, (entrenar_modelo T (setup_resnet (models.resnet18 w18 fcw18)
          class_names.length init) tl vl (adam OptTarget.fcOnly) epochs).2
            = Except.ok R ∧ out.resnet18 = R.model) ∧
      (∃ R, (entrenar_modelo T (setup_resnet (models.resnet34 w34 fcw34)
          class_names.length init) tl vl (adam OptTarget.fcOnly) epochs).2
            = Except.ok R ∧ out.resnet34 = R.model) ∧
      (∃ R, (entrenar_modelo T (setup_vgg19 (models.vgg19 wv cv fcwv)
          class_names.length init) tl vl (adam OptTarget.classifier) epochs).2
            = Except.ok R ∧ out.vgg19 = R.model) ∧
      out.resnet18.finalShape.out_features = class_names.length ∧
      out.resnet34.finalShape.out_features = class_names.length ∧
      out.vgg19.finalShape.out_features = class_names.length) ∧
    (∀ s, (vggNotebookTrain T class_names init wv cv fcwv tl vl epochs).2
        = Except.ok s →
      s.1.finalShape = ⟨4096, class_names.length⟩ ∧ s.1.pretrained = true ∧
      s.1.arch = "vgg19") := by
  refine ⟨rfl, rfl, rfl, rfl, rfl, rfl, ?_, ?_⟩
  · intro out hout
    obtain ⟨R18, R34, RV, h18, h34, hV, e1, -, -, e2, -, -, e3, -, -⟩ :=
      paso5_ok_inv hout
    obtain ⟨s18, hrun18, hm18, -, -, -, -⟩ := entrenar_ok_inv h18
    obtain ⟨-, -, -, -, -, -, -, -, hsh18, -, -, -, -⟩ :=
      epochLoop_ok T tl vl epochs _ _ [] [] [] none s18 hrun18
    obtain ⟨s34, hrun34, hm34, -, -, -, -⟩ := entrenar_ok_inv h34
    obtain ⟨-, -, -, -, -, -, -, -, hsh34, -, -, -, -⟩ :=
      epochLoop_ok T tl vl epochs _ _ [] [] [] none s34 hrun34
    obtain ⟨sV, hrunV, hmV, -, -, -, -⟩ := entrenar_ok_inv hV
    obtain ⟨-, -, -, -, -, -, -, -, hshV, -, -, -, -⟩ :=
      epochLoop_ok T tl vl epochs _ _ [] [] [] none sV hrunV
    refine ⟨⟨R18, h18, e1⟩, ⟨R34, h34, e2⟩, ⟨RV, hV, e3⟩, ?_, ?_, ?_⟩
    · rw [e1, hm18, hsh18]; rfl
    · rw [e2, hm34, hsh34]; rfl
    · rw [e3, hmV, hshV]; rfl
  · intro s hs
    have hs2 : (paso5Loop T tl vl epochs
        (setup_vgg19 (models.vgg19 wv cv fcwv) class_names.length init)
        (adam OptTarget.classifier) [] []).2 = Except.ok s := hs
    obtain ⟨-, -, -, -, -, -, -, hsh, harch, hpre, -, -⟩ :=
      paso5Loop_ok T tl vl epochs _ _ [] [] s hs2
    refine ⟨?_, ?_, ?_⟩
    · rw [hsh]; rfl
    · rw [hpre]; rfl
    · rw [harch]; rfl

theorem c3_witness :
    paso5 torch0 cn0 init0 [5] [3] [6] [4] [7] [8] [9] [b0] [b0] 1 =
      Except.ok out0 ∧
    out0.resnet18.finalShape.out_features = cn0.length ∧
    out0.resnet34.finalShape.out_features = cn0.length ∧
    out0.vgg19.finalShape.out_features = cn0.length := by
  have hrun : paso5 torch0 cn0 init0 [5] [3] [6] [4] [7] [8] [9] [b0] [b0] 1 =
      Except.ok out0 := by
    norm_num [paso5, entrenar_modelo, epochLoop, trainPass, valPass, torch0,
      cn0, out0, b0, adam, pydiv, accuracy_score, countEq, argmaxRow,
      argmaxAux, Net.setGroup, Net.group, setup_resnet, setup_vgg19,
      models.resnet18, models.resnet34, models.vgg19, init0, List.replicate]
  have h := (c3_pretrained_finetuning torch0 cn0 init0 [5] [3] [6] [4] [7] [8]
    [9] [b0] [b0] 1).2.2.2.2.2.2.1 out0 hrun
  exact ⟨hrun, h.2.2.2.1, h.2.2.2.2.1, h.2.2.2.2.2⟩

/-- C4: for every epoch, the entry appended to train_losses is the
arithmetic mean of that epoch's per-batch training losses (their sum
divided by len(train_loader)) and the entry appended to val_losses the
mean of the per-batch validation losses (sum divided by
len(val_loader)); after the loop both lists have length exactly epochs —
in `entrenar_modelo` and in the Paso 5 loop of the VGG notebook alike. -/
theorem c4_epoch_mean_losses (T : Torch) (tl vl : List Batch) (n : ℕ) :
    (∀ z o R, (entrenar_modelo T z tl vl o n).2 = Except.ok R →
      R.train_losses = (epochLossPairs T tl vl n z o).map
        (fun p => p.1.sum / (tl.length : ℚ)) ∧
      R.val_losses = (epochLossPairs T tl vl n z o).map
        (fun p => p.2.sum / (vl.length : ℚ)) ∧
      R.train_losses.length = n ∧ R.val_losses.length = n) ∧
    (∀ z o s, (paso5Loop T tl vl n z o [] []).2 = Except.ok s →
      s.2.2.1 = (epochLossPairs T tl vl n z o).map
        (fun p => p.1.sum / (tl.length : ℚ)) ∧
      s.2.2.2 = (epochLossPairs T tl vl n z o).map
        (fun p => p.2.sum / (vl.length : ℚ)) ∧
      s.2.2.1.length = n ∧ s.2.2.2.length = n) := by
  constructor
  · intro z o R h
    obtain ⟨s, hrun, -, htl, hvl, -, -⟩ := entrenar_ok_inv h
    obtain ⟨H1, H2, -, H4, -, -, -, -, -, -, -, -, -⟩ :=
      epochLoop_ok T tl vl n z o [] [] [] none s hrun
    rw [htl, hvl, H1, H2, List.nil_append]
    exact ⟨rfl, rfl, by simp [H4], by simp [H4]⟩
  · intro z o s h
    obtain ⟨H1, H2, H3, -, -, -, -, -, -, -, -, -⟩ :=
      paso5Loop_ok T tl vl n z o [] [] s h
    rw [H1, H2, List.nil_append]
    exact ⟨rfl, rfl, by simp [H3], by simp [H3]⟩

theorem c4_witness :
    (entrenar_modelo torch0 net0 [b0] [b0] (adam OptTarget.fcOnly) 1).2 =
      Except.ok R0 ∧
    R0.train_losses = (epochLossPairs torch0 [b0] [b0] 1 net0
      (adam OptTarget.fcOnly)).map
        (fun p => p.1.sum / ((([b0] : List Batch).length : ℕ) : ℚ)) ∧
    R0.train_losses.length = 1 ∧ R0.val_losses.length = 1 := by
  have hrun : (entrenar_modelo torch0 net0 [b0] [b0] (adam OptTarget.fcOnly) 1).2 =
      Except.ok R0 := by
    norm_num [entrenar_modelo, epochLoop, trainPass, valPass, torch0, net0, b0,
      net1, R0, adam, pydiv, accuracy_score, countEq, argmaxRow, argmaxAux,
      Net.setGroup, Net.group, setup_resnet, models.resnet18, init0,
      valLossList, valPredList, List.replicate]
  have h := (c4_epoch_mean_losses torch0 [b0] [b0] 1).1 net0
    (adam OptTarget.fcOnly) R0 hrun
  exact ⟨hrun, h.1, h.2.2.1, h.2.2.2⟩

/-- C5: after training, the programs persist model weights: the comparison
notebook saves the state dicts of the three trained models to
model_resnet18.pth, model_resnet34.pth and model_vgg19.pth, the saved
dicts being exactly the parameter values of the models `entrenar_modelo`
returned; the VGG notebook saves its trained model's state dict to
fruitscan_model.pth. -/
theorem c5_checkpoint_saving (T : Torch) (class_names : List String)
    (init : ℕ → ℕ → List ℚ) (w18 fcw18 w34 fcw34 wv cv fcwv : List ℚ)
    (tl vl : List Batch) (epochs : ℕ) :
    (∀ out, paso5 T class_names init w18 fcw18 w34 fcw34 wv cv fcwv tl vl epochs
        = Except.ok out →
      ∃ R18 R34 RV,
        (entrenar_modelo T (setup_resnet (models.resnet18 w18 fcw18)
          class_names.length init) tl vl (adam OptTarget.fcOnly) epochs).2
            = Except.ok R18 ∧
        (entrenar_modelo T (setup_resnet (models.resnet34 w34 fcw34)
          class_names.length init) tl vl (adam OptTarget.fcOnly) epochs).2
            = Except.ok R34 ∧
        (entrenar_modelo T (setup_vgg19 (models.vgg19 wv cv fcwv)
          class_names.length init) tl vl (adam OptTarget.classifier) epochs).2
            = Except.ok RV ∧
        paso8 out = [("model_resnet18.pth", R18.model.state_dict),
          ("model_resnet34.pth", R34.model.state_dict),
          ("model_vgg19.pth", RV.model.state_dict)]) ∧
    (∀ s, (vggNotebookTrain T class_names init wv cv fcwv tl vl epochs).2
        = Except.ok s →
      paso7_guardado s.1 = [("fruitscan_model.pth", s.1.state_dict)]) := by
  constructor
  · intro out hout
    obtain ⟨R18, R34, RV, h18, h34, hV, e1, -, -, e2, -, -, e3, -, -⟩ :=
      paso5_ok_inv hout
    exact ⟨R18, R34, RV, h18, h34, hV, by simp [paso8, e1, e2, e3]⟩
  · intro s _
    rfl

theorem c5_witness :
    (vggNotebookTrain torch0 cn0 init0 [7] [8] [9] [b0] [b0] 1).2 =
      Except.ok (⟨"vgg19", true, [7], false, [9], true, ⟨4096, 2⟩, [1, 1], true⟩,
        ⟨[], OptTarget.classifier⟩, [1], [1]) ∧
    paso7_guardado
        (⟨"vgg19", true, [7], false, [9], true, ⟨4096, 2⟩, [1, 1], true⟩ : Net) =
      [("fruitscan_model.pth", Net.state_dict
        ⟨"vgg19", true, [7], false, [9], true, ⟨4096, 2⟩, [1, 1], true⟩)] := by
  have hrun : (vggNotebookTrain torch0 cn0 init0 [7] [8] [9] [b0] [b0] 1).2 =
      Except.ok (⟨"vgg19", true, [7], false, [9], true, ⟨4096, 2⟩, [1, 1], true⟩,
        ⟨[], OptTarget.classifier⟩, [1], [1]) := by
    norm_num [vggNotebookTrain, paso5Loop, trainPass, valPassV, torch0, cn0,
      b0, adam, pydiv, countEq, argmaxRow, argmaxAux, Net.setGroup, Net.group,
      setup_vgg19, models.vgg19, init0, List.replicate]
  exact ⟨hrun, (c5_checkpoint_saving torch0 cn0 init0 [7] [7] [7] [7] [7] [8]
    [9] [b0] [b0] 1).2
    (⟨"vgg19", true, [7], false, [9], true, ⟨4096, 2⟩, [1, 1], true⟩,
      ⟨[], OptTarget.classifier⟩, [1], [1]) hrun⟩

/-- C6: `entrenar_modelo` contains no failure-handling logic: an exception
raised while processing a training or validation batch propagates
unchanged — the pass stops at the failing batch (bounded trace growth),
the epoch loop stops in the failing epoch, the function hands the
exception unchanged to the caller, and nothing is ever saved by the
function. -/
theorem c6_no_failure_handling (T : Torch) :
    (∀ bs1 b bs2 z o r s e, (trainPass T bs1 z o r).2 = Except.ok s →
      raisesBatch T s.1 b e →
      (trainPass T (bs1 ++ b :: bs2) z o r).2 = Except.error e ∧
      (trainPass T (bs1 ++ b :: bs2) z o r).1.length ≤
        (trainPass T bs1 z o r).1.length + 3) ∧
    (∀ bs1 b bs2 z v yt yp u e, (valPass T z bs1 v yt yp).2 = Except.ok u →
      raisesBatch T z b e →
      (valPass T z (bs1 ++ b :: bs2) v yt yp).2 = Except.error e ∧
      (valPass T z (bs1 ++ b :: bs2) v yt yp).1.length ≤
        (valPass T z bs1 v yt yp).1.length + 2) ∧
    (∀ tl vl n z o tls vls vas ys e, (trainPass T tl z o 0).2 = Except.error e →
      (epochLoop T tl vl (n + 1) z o tls vls vas ys).2 = Except.error e) ∧
    (∀ tl vl n z o tls vls vas ys z1 o1 running e,
      (trainPass T tl z o 0).2 = Except.ok (z1, o1, running) → tl ≠ [] →
      (valPass T z1 vl 0 [] []).2 = Except.error e →
      (epochLoop T tl vl (n + 1) z o tls vls vas ys).2 = Except.error e) ∧
    (∀ tl vl n z o e, (epochLoop T tl vl n z o [] [] [] none).2 =
        Except.error e →
      (entrenar_modelo T z tl vl o n).2 = Except.error e) ∧
    (∀ tl vl n z o f, Ev.save f ∉ (entrenar_modelo T z tl vl o n).1) := by
  refine ⟨?_, ?_, ?_, ?_, ?_, ?_⟩
  · intro bs1 b bs2 z o r s e hok hre
    have happ := trainPass_append_ok T bs1 (b :: bs2) z o r s hok
    rcases (hre : T.forward s.1 b.imgId = Except.error e ∨
        ∃ outs, T.forward s.1 b.imgId = Except.ok outs ∧
          T.criterion outs b.labels = Except.error e) with
      hfe | ⟨outs, hfo, hce⟩
    · have hx : trainPass T (b :: bs2) s.1 s.2.1 s.2.2 =
          ([Ev.zeroGrad, Ev.fwdTrain], Except.error e) := by
        simp [trainPass, hfe]
      refine ⟨by simp [happ, hx], ?_⟩
      simp [happ, hx]
    · have hx : trainPass T (b :: bs2) s.1 s.2.1 s.2.2 =
          ([Ev.zeroGrad, Ev.fwdTrain, Ev.lossTrain], Except.error e) := by
        simp [trainPass, hfo, hce]
      refine ⟨by simp [happ, hx], ?_⟩
      simp [happ, hx]
  · intro bs1 b bs2 z v yt yp u e hok hre
    have happ := valPass_append_ok T z bs1 (b :: bs2) v yt yp u hok
    rcases (hre : T.forward z b.imgId = Except.error e ∨
        ∃ outs, T.forward z b.imgId = Except.ok outs ∧
          T.criterion outs b.labels = Except.error e) with
      hfe | ⟨outs, hfo, hce⟩
    · have hx : valPass T z (b :: bs2) u.1 u.2.1 u.2.2 =
          ([Ev.fwdVal], Except.error e) := by
        simp [valPass, hfe]
      refine ⟨by simp [happ, hx], ?_⟩
      simp [happ, hx]
    · have hx : valPass T z (b :: bs2) u.1 u.2.1 u.2.2 =
          ([Ev.fwdVal, Ev.lossVal], Except.error e) := by
        simp [valPass, hfo, hce]
      refine ⟨by simp [happ, hx], ?_⟩
      simp [happ, hx]
  · intro tl vl n z o tls vls vas ys e h
    simp [epochLoop, h]
  · intro tl vl n z o tls vls vas ys z1 o1 running e htp hne hv
    have hl : tl.length ≠ 0 := by simpa using hne
    simp [epochLoop, htp, pydiv_ne running hl, hv]
  · intro tl vl n z o e h
    exact entrenar_error h
  · intro tl vl n z o f
    rw [entrenar_trace]
    exact save_not_epochLoop T tl vl n z o [] [] [] none f

theorem c6_witness :
    (trainPass torchFail [] net0 (adam OptTarget.fcOnly) 0).2 =
      Except.ok (net0, adam OptTarget.fcOnly, 0) ∧
    raisesBatch torchFail net0 b0 ⟨"RuntimeError", "CUDA out of memory"⟩ ∧
    (trainPass torchFail ([] ++ b0 :: []) net0 (adam OptTarget.fcOnly) 0).2 =
      Except.error ⟨"RuntimeError", "CUDA out of memory"⟩ := by
  refine ⟨rfl, Or.inr ⟨[[1, 0]], rfl, rfl⟩, ?_⟩
  exact ((c6_no_failure_handling torchFail).1 [] b0 [] net0
    (adam OptTarget.fcOnly) 0 (net0, adam OptTarget.fcOnly, 0)
    ⟨"RuntimeError", "CUDA out of memory"⟩ rfl
    (Or.inr ⟨[[1, 0]], rfl, rfl⟩)).1

/-- C7: the confusion matrix plotted for each model is the row-normalized
(normalize="true") confusion matrix of the validation-set labels and
predictions `entrenar_modelo` returned — the final epoch's collection:
the labels of val_loader in order and the argmax predictions of the
trained model — displayed with the dataset class names. -/
theorem c7_confusion_matrices (T : Torch) (class_names : List String)
    (init : ℕ → ℕ → List ℚ) (w18 fcw18 w34 fcw34 wv cv fcwv : List ℚ)
    (tl vl : List Batch) (epochs : ℕ) (out : Paso5Out)
    (h : paso5 T class_names init w18 fcw18 w34 fcw34 wv cv fcwv tl vl epochs
      = Except.ok out) :
    paso7 class_names out = [
      mostrar_confusion class_names out.y_true_r18 out.y_pred_r18 "ResNet18",
      mostrar_confusion class_names out.y_true_r34 out.y_pred_r34 "ResNet34",
      mostrar_confusion class_names out.y_true_vgg out.y_pred_vgg "VGG19"] ∧
    (∀ p ∈ paso7 class_names out, p.display_labels = class_names) ∧
    (∀ p ∈ paso7 class_names out, ∀ row ∈ p.cm,
      row.sum = 1 ∨ ∀ x ∈ row, x = 0) ∧
    out.y_true_r18 = (vl.map (fun b => b.labels)).flatten ∧
    out.y_pred_r18 = valPredList T out.resnet18 vl ∧
    out.y_true_r34 = (vl.map (fun b => b.labels)).flatten ∧
    out.y_pred_r34 = valPredList T out.resnet34 vl ∧
    out.y_true_vgg = (vl.map (fun b => b.labels)).flatten ∧
    out.y_pred_vgg = valPredList T out.vgg19 vl := by
  obtain ⟨R18, R34, RV, h18, h34, hV, e1, et1, ep1, e2, et2, ep2, e3, et3, ep3⟩ :=
    paso5_ok_inv h
  cases epochs with
  | zero =>
    have h0 := entrenar_epochs_zero T
      (setup_resnet (models.resnet18 w18 fcw18) class_names.length init)
      tl vl (adam OptTarget.fcOnly)
    rw [h0] at h18
    cases h18
  | succ m =>
    obtain ⟨hy18, hp18, -⟩ := entrenar_final_val h18
    obtain ⟨hy34, hp34, -⟩ := entrenar_final_val h34
    obtain ⟨hyV, hpV, -⟩ := entrenar_final_val hV
    refine ⟨rfl, ?_, ?_, ?_, ?_, ?_, ?_, ?_, ?_⟩
    · intro p hp
      simp only [paso7, List.mem_cons, List.not_mem_nil, or_false] at hp
      rcases hp with rfl | rfl | rfl <;> rfl
    · intro p hp row hrow
      simp only [paso7, List.mem_cons, List.not_mem_nil, or_false] at hp
      rcases hp with rfl | rfl | rfl <;> exact confusion_rows _ _ row hrow
    · rw [et1, hy18]
    · rw [ep1, hp18, e1]
    · rw [et2, hy34]
    · rw [ep2, hp34, e2]
    · rw [et3, hyV]
    · rw [ep3, hpV, e3]

theorem c7_witness :
    paso5 torch0 cn0 init0 [5] [3] [6] [4] [7] [8] [9] [b0] [b0] 1 =
      Except.ok out0 ∧
    paso7 cn0 out0 = [
      mostrar_confusion cn0 out0.y_true_r18 out0.y_pred_r18 "ResNet18",
      mostrar_confusion cn0 out0.y_true_r34 out0.y_pred_r34 "ResNet34",
      mostrar_confusion cn0 out0.y_true_vgg out0.y_pred_vgg "VGG19"] ∧
    out0.y_true_r18 = (([b0] : List Batch).map (fun b => b.labels)).flatten ∧
    out0.y_pred_vgg = valPredList torch0 out0.vgg19 [b0] := by
  have hrun : paso5 torch0 cn0 init0 [5] [3] [6] [4] [7] [8] [9] [b0] [b0] 1 =
      Except.ok out0 := by
    norm_num [paso5, entrenar_modelo, epochLoop, trainPass, valPass, torch0,
      cn0, out0, b0, adam, pydiv, accuracy_score, countEq, argmaxRow,
      argmaxAux, Net.setGroup, Net.group, setup_resnet, setup_vgg19,
      models.resnet18, models.resnet34, models.vgg19, init0, List.replicate]
  have h := c7_confusion_matrices torch0 cn0 init0 [5] [3] [6] [4] [7] [8] [9]
    [b0] [b0] 1 out0 hrun
  exact ⟨hrun, h.1, h.2.2.2.1, h.2.2.2.2.2.2.2.2⟩

/-- C8 (amended): `entrenar_modelo` always terminates (it is a total
function of its inputs); provided no framework call raises and both
loaders are nonempty, it iterates over train_loader exactly `epochs`
times and over val_loader exactly `epochs` times — per epoch one full
training pass followed by one full validation pass, with no other
looping, as read off the emitted event trace — and with at least one
epoch it returns successfully. -/
theorem c8_epoch_iteration (T : Torch) (tl vl : List Batch) (z : Net)
    (o : Optim) (n : ℕ) (hT : T.noRaise) (h1 : tl ≠ []) (h2 : vl ≠ []) :
    (entrenar_modelo T z tl vl o n).1 =
      (List.replicate n (fullEpochTrace tl vl)).flatten ∧
    (n ≠ 0 → ∃ R, (entrenar_modelo T z tl vl o n).2 = Except.ok R) := by
  obtain ⟨s, hs⟩ := noRaise_epochLoop hT h1 h2 n z o [] [] [] none
  constructor
  · rw [entrenar_trace, hs]
  · intro hn
    obtain ⟨m, rfl⟩ := Nat.exists_eq_succ_of_ne_zero hn
    have hrun : (epochLoop T tl vl (m + 1) z o [] [] [] none).2 =
        Except.ok s := by rw [hs]
    obtain ⟨-, h2', -⟩ := epochLoop_last T tl vl (m + 1) z o [] [] [] none s hrun
    exact ⟨_, entrenar_ok_of hrun (h2' (Nat.succ_ne_zero m))⟩

/-- C8 counterexample: with an empty train_loader and epochs = 2, the run
raises ZeroDivisionError during the first epoch; the emitted trace is
empty, so val_loader is iterated 0 times rather than 2 and train_loader
is not traversed a second time, refuting the claim as stated for every
finite loader. -/
theorem c8_counterexample :
    (entrenar_modelo torch0 net0 [] [b0] (adam OptTarget.fcOnly) 2).1 = [] ∧
    (entrenar_modelo torch0 net0 [] [b0] (adam OptTarget.fcOnly) 2).1 ≠
      (List.replicate 2 (fullEpochTrace [] [b0])).flatten ∧
    (entrenar_modelo torch0 net0 [] [b0] (adam OptTarget.fcOnly) 2).2 =
      Except.error zeroDivisionError := by
  refine ⟨rfl, ?_, rfl⟩
  intro h
  simp only [fullEpochTrace, valBatchEvs, batchEvs] at h
  exact absurd h (by decide)

theorem c8_witness :
    Torch.noRaise torch0 ∧
    (entrenar_modelo torch0 net0 [b0] [b0] (adam OptTarget.fcOnly) 2).1 =
      (List.replicate 2 (fullEpochTrace [b0] [b0])).flatten := by
  have hT : Torch.noRaise torch0 :=
    ⟨fun z i => ⟨[[1, 0]], rfl⟩, fun os ls => ⟨1, rfl⟩⟩
  exact ⟨hT, (c8_epoch_iteration torch0 [b0] [b0] net0 (adam OptTarget.fcOnly)
    2 hT (by decide) (by decide)).1⟩

/-- C9: the per-epoch loss and accuracy computations divide by
len(train_loader), len(val_loader) and (in the VGG notebook) by total,
without any guard: with nonempty loaders (and, for the VGG loop, a
nonempty validation set) no division raises, while with at least one
epoch an empty train or validation loader — or an all-empty validation
set in the VGG loop — makes the loop raise ZeroDivisionError instead of
returning a result. -/
theorem c9_division_guards (T : Torch) (z : Net) (o : Optim) :
    (∀ tl vl n, T.noRaise → tl ≠ [] → vl ≠ [] →
      (entrenar_modelo T z tl vl o n).2 ≠ Except.error zeroDivisionError) ∧
    (∀ tl vl n, T.noRaise → tl ≠ [] → vl ≠ [] →
      (vl.map (fun b => b.labels)).flatten ≠ [] →
      ∃ s, (paso5Loop T tl vl n z o [] []).2 = Except.ok s) ∧
    (∀ vl n, (entrenar_modelo T z [] vl o (n + 1)).2 =
      Except.error zeroDivisionError) ∧
    (∀ tl n, T.noRaise → (entrenar_modelo T z tl [] o (n + 1)).2 =
      Except.error zeroDivisionError) ∧
    (∀ vl n tls vls, (paso5Loop T [] vl (n + 1) z o tls vls).2 =
      Except.error zeroDivisionError) ∧
    (∀ tl n tls vls, T.noRaise → (paso5Loop T tl [] (n + 1) z o tls vls).2 =
      Except.error zeroDivisionError) ∧
    (∀ tl vl n tls vls, T.noRaise → tl ≠ [] → vl ≠ [] →
      (vl.map (fun b => b.labels)).flatten = [] →
      (paso5Loop T tl vl (n + 1) z o tls vls).2 =
        Except.error zeroDivisionError) := by
  refine ⟨?_, ?_, ?_, ?_, ?_, ?_, ?_⟩
  · intro tl vl n hT h1 h2
    obtain ⟨s, hs⟩ := noRaise_epochLoop hT h1 h2 n z o [] [] [] none
    have hrun : (epochLoop T tl vl n z o [] [] [] none).2 = Except.ok s := by
      rw [hs]
    cases n with
    | zero =>
      rw [entrenar_epochs_zero]
      intro heq
      exact absurd heq (by decide)
    | succ m =>
      obtain ⟨-, h2', -⟩ := epochLoop_last T tl vl (m + 1) z o [] [] [] none
        s hrun
      rw [entrenar_ok_of hrun (h2' (Nat.succ_ne_zero m))]
      simp
  · intro tl vl n hT h1 h2 h3
    obtain ⟨s, hs⟩ := noRaise_paso5Loop hT h1 h2 h3 n z o [] []
    exact ⟨s, by rw [hs]⟩
  · intro vl n
    exact entrenar_error (epochLoop_empty_train T vl n z o [] [] [] none)
  · intro tl n hT
    exact entrenar_error (epochLoop_empty_val hT tl n z o [] [] [] none)
  · intro vl n tls vls
    exact paso5Loop_empty_train T vl n z o tls vls
  · intro tl n tls vls hT
    exact paso5Loop_empty_val hT tl n z o tls vls
  · intro tl vl n tls vls hT h1 h2 h3
    exact paso5Loop_total_zero hT h1 h2 h3 n z o tls vls

theorem c9_witness :
    Torch.noRaise torch0 ∧
    (entrenar_modelo torch0 net0 [b0] [b0] (adam OptTarget.fcOnly) 1).2 ≠
      Except.error zeroDivisionError := by
  have hT : Torch.noRaise torch0 :=
    ⟨fun z i => ⟨[[1, 0]], rfl⟩, fun os ls => ⟨1, rfl⟩⟩
  exact ⟨hT, (c9_division_guards torch0 net0 (adam OptTarget.fcOnly)).1
    [b0] [b0] 1 hT (by decide) (by decide)⟩

/-- C10: for epochs >= 1 the `y_true` and `y_pred` lists `entrenar_modelo`
returns are exactly those built in the final epoch's validation pass:
`y_true` the labels of val_loader in iteration order, `y_pred` the
corresponding argmax predictions of the returned model, both as long as
the number of validation samples (under one logit row per sample); for
epochs = 0 the function fails at its return statement with a NameError
because `y_true` was never assigned. -/
theorem c10_returned_validation_lists (T : Torch) (tl vl : List Batch) :
    (∀ z o, (entrenar_modelo T z tl vl o 0).2 =
      Except.error (nameError "y_true")) ∧
    (∀ z o n R, (entrenar_modelo T z tl vl o (n + 1)).2 = Except.ok R →
      R.y_true = (vl.map (fun b => b.labels)).flatten ∧
      R.y_pred = valPredList T R.model vl ∧
      R.y_true.length = ((vl.map (fun b => b.labels)).flatten).length ∧
      (T.rowsMatch vl → R.y_pred.length = R.y_true.length)) := by
  refine ⟨fun z o => entrenar_epochs_zero T z tl vl o, ?_⟩
  intro z o n R h
  obtain ⟨hyt, hyp, hlen⟩ := entrenar_final_val h
  exact ⟨hyt, hyp, by rw [hyt], hlen⟩

theorem c10_witness :
    (entrenar_modelo torch0 net0 [b0] [b0] (adam OptTarget.fcOnly) 1).2 =
      Except.ok R0 ∧
    R0.y_true = (([b0] : List Batch).map (fun b => b.labels)).flatten ∧
    R0.y_pred = valPredList torch0 R0.model [b0] := by
  have hrun : (entrenar_modelo torch0 net0 [b0] [b0] (adam OptTarget.fcOnly) 1).2 =
      Except.ok R0 := by
    norm_num [entrenar_modelo, epochLoop, trainPass, valPass, torch0, net0, b0,
      net1, R0, adam, pydiv, accuracy_score, countEq, argmaxRow, argmaxAux,
      Net.setGroup, Net.group, setup_resnet, models.resnet18, init0,
      valLossList, valPredList, List.replicate]
  have h := (c10_returned_validation_lists torch0 [b0] [b0]).2 net0
    (adam OptTarget.fcOnly) 0 R0 hrun
  exact ⟨hrun, h.1, h.2.1⟩

end FruitScan
